import Mathlib

/-!
Verification development for the iccinspector ICC-profile decoder
(`iccinspector.py`).  The Python source is shallowly embedded: byte
buffers are lists of `Fin 256`, Python exceptions are an explicit
`Except` error channel, and every `read` method of the source becomes a
Lean function with the same slicing and unpacking behaviour.

Modelling conventions, mirrored from the source:
  * Python slicing `buffer[a:b]` clamps out-of-range bounds; `pySlice`
    reproduces that with `drop`/`take`.
  * `struct.unpack` raises (modelled as `PyExc.structErr`) when the
    view does not have exactly the required width.
  * `numpy.frombuffer(s, dt, len(s) // k)` silently yields
    `len(s) / k` values and never raises on a short view; the
    fixed-point unpackers below are therefore total functions.
  * decoded text is represented by its validated byte string: strict
    UTF-8 / UTF-16-BE decoding succeeds exactly when the bytes are
    valid for the codec, and (since the codecs are injective and every
    comparison target in the source is ASCII) equality of decoded
    strings coincides with equality of the underlying bytes.
  * `numpy.divide(a, b, where=mask)` with no `out=` argument leaves
    the entries where the mask is false uninitialized; the arbitrary
    memory contents that the source then stores are modelled by an
    explicit parameter `mem` threaded to `XYZNumber.read`.
  * floating-point arithmetic is modelled by exact rationals.
-/

set_option maxRecDepth 100000

set_option allowUnsafeReducibility true

attribute [semireducible] Rat.mul Rat.inv Rat.add Rat.sub Rat.ofScientific

/-- Python exception classes, as far as the decoder's control flow
distinguishes them: `attrErr` is `AttributeError` (caught in
`iccTag.read`), `valErr` is `ValueError` (caught in
`iccDateTimeNumber.read`; also raised by numpy size checks),
`structErr` is `struct.error`, `unicodeErr` is `UnicodeDecodeError`,
`keyErr` is `KeyError`, and `iccErr` is the source's `ICCFileError`. -/
inductive PyExc
  | attrErr
  | structErr
  | unicodeErr
  | valErr
  | keyErr
  | iccErr
deriving DecidableEq, Repr

/-- A byte buffer: the `memoryview` the decoder works on. -/
abbrev Buf := List (Fin 256)

/-- `n` zero bytes (`bytes(n)` in Python). -/
def zeros (n : Nat) : Buf := List.replicate n 0

/-- Python slice `l[a:b]` for non-negative bounds: clamps at the end of
the list and yields `[]` when `b ≤ a`. -/
def pySlice (l : Buf) (a b : Nat) : Buf := (l.drop a).take (b - a)

/-- A byte read as a signed 8-bit value (`struct` format `b`). -/
def sbyte (b : Fin 256) : ℤ := if b.val < 128 then (b.val : ℤ) else (b.val : ℤ) - 256

/-- `unpack_uInt8Number`: `struct.unpack(">B", s)` - exactly 1 byte. -/
def unpack_uInt8Number (s : Buf) : Except PyExc Nat :=
  match s with
  | [b] => .ok b.val
  | _ => .error .structErr

/-- `unpack_uInt16Number`: `struct.unpack(">H", s)` - exactly 2 bytes,
big endian. -/
def unpack_uInt16Number (s : Buf) : Except PyExc Nat :=
  match s with
  | [a, b] => .ok (a.val * 256 + b.val)
  | _ => .error .structErr

/-- `unpack_uInt32Number`: `struct.unpack(">I", s)` - exactly 4 bytes,
big endian. -/
def unpack_uInt32Number (s : Buf) : Except PyExc Nat :=
  match s with
  | [a, b, c, d] => .ok (((a.val * 256 + b.val) * 256 + c.val) * 256 + d.val)
  | _ => .error .structErr

/-- `struct.unpack("H", s)`: native byte order, modelled for a
little-endian host (the unlabelled `reserved` field of
`iccProfileVersion` is the only user). -/
def unpack_nativeU16 (s : Buf) : Except PyExc Nat :=
  match s with
  | [a, b] => .ok (a.val + b.val * 256)
  | _ => .error .structErr

/-- `struct.unpack("b", s)`: exactly 1 byte, signed. -/
def unpack_int8 (s : Buf) : Except PyExc ℤ :=
  match s with
  | [b] => .ok (sbyte b)
  | _ => .error .structErr

/-- UTF-8 continuation byte test (`0x80..0xBF`). -/
def utf8Cont (b : Fin 256) : Bool := 128 ≤ b.val && b.val < 192

/-- State machine for strict UTF-8 validation: `n` pending
continuation bytes, the next of which must lie in `[lo, hi)` (later
ones in `[0x80, 0xC0)`).  A lead byte sets `n` and the first-byte
bounds, which encode the overlong, surrogate and `U+10FFFF` limits. -/
def utf8ValidAux : Buf → Nat → Nat → Nat → Bool
  | [], n, _, _ => n = 0
  | b :: rest, 0, _, _ =>
    if b.val < 128 then utf8ValidAux rest 0 128 192
    else if b.val < 194 then false
    else if b.val < 224 then utf8ValidAux rest 1 128 192
    else if b.val = 224 then utf8ValidAux rest 2 160 192
    else if b.val = 237 then utf8ValidAux rest 2 128 160
    else if b.val < 240 then utf8ValidAux rest 2 128 192
    else if b.val = 240 then utf8ValidAux rest 3 144 192
    else if b.val < 244 then utf8ValidAux rest 3 128 192
    else if b.val = 244 then utf8ValidAux rest 3 128 144
    else false
  | b :: rest, Nat.succ n, lo, hi =>
    if lo ≤ b.val && b.val < hi then utf8ValidAux rest n 128 192 else false

/-- Strict UTF-8 validity, as Python's `decode("utf-8")` checks it:
rejects continuation and overlong leads, overlong 3/4-byte sequences,
surrogates (`ED A0..`) and code points above `U+10FFFF` (`F5..`). -/
def utf8Valid (l : Buf) : Bool := utf8ValidAux l 0 128 192

/-- State machine for strict UTF-16-BE validation: `expectLow` records
that the previous unit was a high surrogate. -/
def utf16beValidAux : Buf → Bool → Bool
  | [], expectLow => !expectLow
  | [_], _ => false
  | a :: b :: rest, expectLow =>
    let u := a.val * 256 + b.val
    if expectLow then
      if 56320 ≤ u && u < 57344 then utf16beValidAux rest false else false
    else if u < 55296 || 57344 ≤ u then utf16beValidAux rest false
    else if u < 56320 then utf16beValidAux rest true
    else false

/-- Strict UTF-16-BE validity, as Python's `decode("utf-16be")` checks
it: even byte count, and surrogates only in high/low pairs. -/
def utf16beValid (l : Buf) : Bool := utf16beValidAux l false

/-- `unpack_string` with the default `utf-8` codec: the `struct`
format `"{len(s)}s"` always matches, so only the decode can fail.  The
decoded string is represented by its validated bytes. -/
def unpack_string (s : Buf) : Except PyExc Buf :=
  if utf8Valid s then .ok s else .error .unicodeErr

/-- `unpack_string(s, codec="utf-16be")`, as used by `mlucType`. -/
def unpack_string_utf16be (s : Buf) : Except PyExc Buf :=
  if utf16beValid s then .ok s else .error .unicodeErr

/-- `unpack_tagSignature`: `struct.unpack("4s", s)` (exactly 4 bytes)
followed by a strict UTF-8 decode. -/
def unpack_tagSignature (s : Buf) : Except PyExc Buf :=
  if s.length = 4 then
    if utf8Valid s then .ok s else .error .unicodeErr
  else .error .structErr

/-- An s15Fixed16 value from its raw big-endian 32-bit pattern:
two's-complement, divided by 2^16. -/
def s15val (n : Nat) : ℚ :=
  (((if n < 2147483648 then (n : ℤ) else (n : ℤ) - 4294967296) : ℤ) : ℚ) / 65536

/-- `unpack_s15Fixed16Number`:
`numpy.frombuffer(s, ">i4", len(s) // 4) / 2**16`.  Yields
`len s / 4` values and never fails, even on a short view. -/
def unpack_s15Fixed16Number : Buf → List ℚ
  | a :: b :: c :: d :: r =>
    s15val (((a.val * 256 + b.val) * 256 + c.val) * 256 + d.val) :: unpack_s15Fixed16Number r
  | _ => []

/-- `unpack_u8Fixed8Number`:
`numpy.frombuffer(s, ">u2", len(s) // 2) / 2**8`.  Yields
`len s / 2` values and never fails, even on a short view. -/
def unpack_u8Fixed8Number : Buf → List ℚ
  | a :: b :: r => ((a.val * 256 + b.val : Nat) : ℚ) / 256 :: unpack_u8Fixed8Number r
  | _ => []

/-- The raw big-endian u16 values of a buffer, `len s / 2` of them
(`numpy.frombuffer(s, ">u2", count)` semantics). -/
def groupU16 : Buf → List Nat
  | a :: b :: r => (a.val * 256 + b.val) :: groupU16 r
  | _ => []

/-- `try: ... except Exception: raise ICCFileError(...)`: the pattern
wrapping the body of every `read` method in the source. -/
def wrapIcc {α : Type} (e : Except PyExc α) : Except PyExc α :=
  match e with
  | .ok a => .ok a
  | .error _ => .error .iccErr

deriving instance DecidableEq for Except

/-- The decoded state of an `XYZNumber`: the `_XYZ` array and the three
derived `_xyY` entries. -/
structure XYZval where
  XYZ : List ℚ
  x : ℚ
  y : ℚ
  Yxy : ℚ
deriving DecidableEq, Repr

/-- `XYZNumber.read`: unpacks the whole buffer as s15Fixed16 values and
derives xyY.  When fewer than two values result, indexing `_XYZ` fails
and the method raises `ICCFileError`.  `mem` models the uninitialized
result of `numpy.divide(..., where=XYZ_sum != 0)` (no `out=`): when the
sum is zero the source stores arbitrary memory contents in `x`, `y`. -/
def XYZNumberRead (mem : ℚ × ℚ) (s : Buf) : Except PyExc XYZval :=
  match unpack_s15Fixed16Number s with
  | [] => .error .iccErr
  | [_] => .error .iccErr
  | v0 :: v1 :: rest =>
    let vals := v0 :: v1 :: rest
    let sum := vals.sum
    .ok ⟨vals,
      if sum = 0 then mem.1 else v0 / sum,
      if sum = 0 then mem.2 else v1 / sum,
      v1⟩

/-- `_profileclasssignatures.get(sig, "None")`. -/
def profileClassDescription (s : Buf) : String :=
  if s = [115, 99, 110, 114] then "Input device profile"
  else if s = [109, 110, 116, 114] then "Display device profile"
  else if s = [112, 114, 116, 114] then "Output device profile"
  else if s = [108, 105, 110, 107] then "DeviceLink profile"
  else if s = [115, 112, 97, 99] then "ColorSpace profile"
  else if s = [97, 98, 115, 116] then "Abstract profile"
  else if s = [110, 109, 99, 108] then "NamedColor profile"
  else "None"

/-- `_colorspacesignatures.get(sig, "None")`. -/
def colorSpaceDescription (s : Buf) : String :=
  if s = [88, 89, 90, 32] then "nCIEXYZ or PCSXYZ"
  else if s = [76, 97, 98, 32] then "CIELAB or PCSLAB"
  else if s = [76, 117, 118, 32] then "CIELUV"
  else if s = [89, 67, 98, 114] then "YCbCr"
  else if s = [89, 120, 121, 32] then "CIEYxy"
  else if s = [82, 71, 66, 32] then "RGB"
  else if s = [71, 82, 65, 89] then "Gray"
  else if s = [72, 83, 86, 32] then "HSV"
  else if s = [72, 76, 83, 32] then "HLS"
  else if s = [67, 77, 89, 75] then "CMYK"
  else if s = [67, 77, 89, 32] then "CMY"
  else if s = [50, 67, 76, 82] then "2 colour"
  else if s = [51, 67, 76, 82] then "3 colour"
  else if s = [52, 67, 76, 82] then "4 colour"
  else if s = [53, 67, 76, 82] then "5 colour"
  else if s = [54, 67, 76, 82] then "6 colour"
  else if s = [55, 67, 76, 82] then "7 colour"
  else if s = [56, 67, 76, 82] then "8 colour"
  else if s = [57, 67, 76, 82] then "9 colour"
  else if s = [65, 67, 76, 82] then "10 colour"
  else if s = [66, 67, 76, 82] then "11 colour"
  else if s = [67, 67, 76, 82] then "12 colour"
  else if s = [68, 67, 76, 82] then "13 colour"
  else if s = [69, 67, 76, 82] then "14 colour"
  else if s = [70, 67, 76, 82] then "15 colour"
  else "None"

/-- `_primaryplatformsignatures.get(sig, "None")`. -/
def primaryPlatformDescription (s : Buf) : String :=
  if s = [65, 80, 80, 76] then "Apple Computer, Inc."
  else if s = [77, 83, 70, 84] then "Microsoft Corporation"
  else if s = [83, 71, 73, 32] then "Silicon Graphics, Inc."
  else if s = [83, 85, 78, 87] then "Sun Microsystems, Inc."
  else "None"

/-- `_renderingintenttable[n]`: `none` models the `KeyError`. -/
def renderingIntentDescription (n : Nat) : Option String :=
  match n with
  | 0 => some "Perceptual"
  | 1 => some "Media-relative colorimetric"
  | 2 => some "Saturation"
  | 3 => some "ICC-absolute colorimetric"
  | _ => none

/-- One record of a `mlucType` element. -/
structure MlucRec where
  lang : Buf
  country : Buf
  text : Buf
deriving DecidableEq, Repr

/-- Decoded `mlucType` element. -/
structure MlucVal where
  typesignature : Buf
  reserved : Nat
  recordcount : Nat
  recordsize : Nat
  records : List MlucRec
deriving DecidableEq, Repr

/-- Decoded `curvType` element; `curve = none` models the source's
`_curve is None` state (identity curve). -/
structure CurvVal where
  typesignature : Buf
  reserved : Nat
  entriescount : Nat
  curvetype : String
  curve : Option (List ℚ)
deriving DecidableEq, Repr

/-- Decoded `paraType` element; each parameter maps to the (possibly
empty) list of s15Fixed16 values its 4-byte slice yielded. -/
structure ParaVal where
  typesignature : Buf
  reserved : Nat
  functiontype : Nat
  reservedsecond : Nat
  function : String
  parameters : List (String × List ℚ)
deriving DecidableEq, Repr

/-- Decoded `descType` element. -/
structure DescVal where
  typesignature : Buf
  reserved : Nat
  asciicount : Nat
  asciidescription : Buf
  unicodecode : Nat
  unicodecount : Nat
  unicodedescription : Buf
  scriptcodecode : Nat
  scriptcodecount : Nat
  scriptcodedescription : Buf
deriving DecidableEq, Repr

/-- Decoded `textType` element. -/
structure TextVal where
  typesignature : Buf
  reserved : Nat
  description : Buf
deriving DecidableEq, Repr

/-- Decoded `XYZ_Type` element. -/
structure XYZTypeVal where
  typesignature : Buf
  reserved : Nat
  xyzs : List XYZval
deriving DecidableEq, Repr

/-- Decoded `sf32Type` element. -/
structure Sf32Val where
  typesignature : Buf
  reserved : Nat
  sf32 : List ℚ
deriving DecidableEq, Repr

/-- The element-type classes the module defines (the only `getattr`
targets of the form `<sig>Type`). -/
inductive ElemKind
  | mlucK | curvK | paraK | descK | textK | xyzK | sf32K
deriving DecidableEq, Repr

/-- A decoded typed element: one variant per `<sig>Type` class. -/
inductive IccElem
  | mlucE (v : MlucVal)
  | curvE (v : CurvVal)
  | paraE (v : ParaVal)
  | descE (v : DescVal)
  | textE (v : TextVal)
  | xyzE (v : XYZTypeVal)
  | sf32E (v : Sf32Val)
deriving DecidableEq, Repr

/-- The record loop of `mlucType.read`, record `idx` onwards. -/
def mlucLoop (tb : Buf) : Nat → Nat → Except PyExc (List MlucRec)
  | _, 0 => .ok []
  | idx, Nat.succ k => do
    let start := 16 + idx * 12
    let lang ← unpack_string (pySlice tb start (start + 2))
    let country ← unpack_string (pySlice tb (start + 2) (start + 4))
    let sz ← unpack_uInt32Number (pySlice tb (start + 4) (start + 8))
    let off ← unpack_uInt32Number (pySlice tb (start + 8) (start + 12))
    let txt ← unpack_string_utf16be (pySlice tb off (off + sz))
    let rest ← mlucLoop tb (idx + 1) k
    .ok (⟨lang, country, txt⟩ :: rest)

/-- `mlucType.read` on `(offset, length, buffer)`. -/
def mlucRead (o len : Nat) (buf : Buf) : Except PyExc MlucVal :=
  wrapIcc (do
    let tb := pySlice buf o (o + len)
    let tsig ← unpack_tagSignature (pySlice tb 0 4)
    let res ← unpack_uInt32Number (pySlice tb 4 8)
    let rc ← unpack_uInt32Number (pySlice tb 8 12)
    let rs ← unpack_uInt32Number (pySlice tb 12 16)
    let recs ← mlucLoop tb 0 rc
    .ok ⟨tsig, res, rc, rs, recs⟩)

/-- `curvType.read` on `(offset, length, buffer)`.  `count = 0` leaves
`_curve` at `None`; `count = 1` unpacks bytes 12..14 as u8Fixed8 (a
short slice silently yields an empty array); `count > 1` requires
`numpy.frombuffer` to find `count` u16 entries at offset 12 and divides
them by 65535. -/
def curvRead (o len : Nat) (buf : Buf) : Except PyExc CurvVal :=
  wrapIcc (do
    let cb := pySlice buf o (o + len)
    let tsig ← unpack_tagSignature (pySlice cb 0 4)
    let res ← unpack_uInt32Number (pySlice cb 4 8)
    let cnt ← unpack_uInt32Number (pySlice cb 8 12)
    if cnt = 0 then
      .ok ⟨tsig, res, cnt, "Identity Curve", none⟩
    else if cnt = 1 then
      .ok ⟨tsig, res, cnt, "Power Function", some (unpack_u8Fixed8Number (pySlice cb 12 14))⟩
    else if 12 + 2 * cnt ≤ cb.length then
      .ok ⟨tsig, res, cnt, "1D Curve",
        some ((groupU16 (pySlice cb 12 (12 + 2 * cnt))).map (fun r : Nat => (r : ℚ) / 65535))⟩
    else .error .valErr)

/-- `_parametriccurvetypetable`: the function string and ordered
parameter names for each function type; `none` for a type not in the
table (the source then calls `.get` on the `int` default `-1`, raising
`AttributeError` inside `paraType.read`, which converts it to
`ICCFileError`). -/
def paraNames : Nat → Option (String × List String)
  | 0 => some ("Y = X**g", ["g"])
  | 1 => some ("Y = (aX + b)**g if X >= -b/a else Y = 0", ["g", "a", "b"])
  | 2 => some ("Y = (aX + b)**g + c if X >= -b/a else Y = c", ["g", "a", "b", "c"])
  | 3 => some ("Y = (aX + b)**g if X >= d else Y = cX", ["g", "a", "b", "c", "d"])
  | 4 => some ("Y = (aX + b)**g if X >= d else Y = cX + f", ["g", "a", "b", "c", "d", "e", "f"])
  | _ => none

/-- The parameter loop of `paraType.read`: parameter `index` reads the
4-byte slice at `index * 4 + 12` (possibly short, yielding `[]`). -/
def paraParams (pb : Buf) (names : List String) : List (String × List ℚ) :=
  names.enum.map (fun p =>
    (p.2, unpack_s15Fixed16Number (pySlice pb (p.1 * 4 + 12) (p.1 * 4 + 16))))

/-- `paraType.read` on `(offset, length, buffer)`. -/
def paraRead (o len : Nat) (buf : Buf) : Except PyExc ParaVal :=
  wrapIcc (do
    let pb := pySlice buf o (o + len)
    let tsig ← unpack_tagSignature (pySlice pb 0 4)
    let res ← unpack_uInt32Number (pySlice pb 4 8)
    let ftype ← unpack_uInt16Number (pySlice pb 8 10)
    let res2 ← unpack_uInt16Number (pySlice pb 10 12)
    match paraNames ftype with
    | none => .error .attrErr
    | some fn => .ok ⟨tsig, res, ftype, res2, fn.1, paraParams pb fn.2⟩)

/-- `descType.read` on `(offset, length, buffer)`. -/
def descRead (o len : Nat) (buf : Buf) : Except PyExc DescVal :=
  wrapIcc (do
    let db := pySlice buf o (o + len)
    let tsig ← unpack_tagSignature (pySlice db 0 4)
    let res ← unpack_uInt32Number (pySlice db 4 8)
    let acount ← unpack_uInt32Number (pySlice db 8 12)
    let ea := 12 + acount
    let adesc ← unpack_string (pySlice db 12 ea)
    let ucode ← unpack_uInt32Number (pySlice db ea (ea + 4))
    let ucount ← unpack_uInt32Number (pySlice db (ea + 4) (ea + 8))
    let eu := ea + ucount + 8
    let udesc ← unpack_string (pySlice db (ea + 8) eu)
    let scode ← unpack_uInt16Number (pySlice db eu (eu + 2))
    let scount ← unpack_uInt8Number (pySlice db (eu + 2) (eu + 3))
    let sdesc ← unpack_string (pySlice db (eu + 3) (eu + 70))
    .ok ⟨tsig, res, acount, adesc, ucode, ucount, udesc, scode, scount, sdesc⟩)

/-- `textType.read` on `(offset, length, buffer)`. -/
def textRead (o len : Nat) (buf : Buf) : Except PyExc TextVal :=
  wrapIcc (do
    let tb := pySlice buf o (o + len)
    let tsig ← unpack_tagSignature (pySlice tb 0 4)
    let res ← unpack_uInt32Number (pySlice tb 4 8)
    let desc ← unpack_string (pySlice tb 8 tb.length)
    .ok ⟨tsig, res, desc⟩)

/-- The per-triple loop of `XYZ_Type.read`: triple `i` reads the
12-byte slice at `i * 12 + 8` of the element buffer. -/
def xyzLoop (mem : ℚ × ℚ) (xb : Buf) : Nat → Nat → Except PyExc (List XYZval)
  | _, 0 => .ok []
  | i, Nat.succ k => do
    let v ← XYZNumberRead mem (pySlice xb (i * 12 + 8) (i * 12 + 20))
    let rest ← xyzLoop mem xb (i + 1) k
    .ok (v :: rest)

/-- `XYZ_Type.read` on `(offset, length, buffer)`.  The count is
`(declared length - 8) / 12` using the slice attributes (not the
clamped buffer); a declared length below 8 makes that count negative
and `numpy.empty` raise `ValueError`. -/
def xyzTypeRead (mem : ℚ × ℚ) (o len : Nat) (buf : Buf) : Except PyExc XYZTypeVal :=
  wrapIcc (do
    let xb := pySlice buf o (o + len)
    let tsig ← unpack_tagSignature (pySlice xb 0 4)
    let res ← unpack_uInt32Number (pySlice xb 4 8)
    if len < 8 then .error .valErr
    else do
      let xs ← xyzLoop mem xb 0 ((len - 8) / 12)
      .ok ⟨tsig, res, xs⟩)

/-- `sf32Type.read` on `(offset, length, buffer)`.  The source slices
the element buffer with the absolute stop `self._slice.stop`
(`sf32typebuffer[8:o+len]`), which clamps to the whole tail. -/
def sf32Read (o len : Nat) (buf : Buf) : Except PyExc Sf32Val :=
  wrapIcc (do
    let sb := pySlice buf o (o + len)
    let tsig ← unpack_tagSignature (pySlice sb 0 4)
    let res ← unpack_uInt32Number (pySlice sb 4 8)
    .ok ⟨tsig, res, unpack_s15Fixed16Number (pySlice sb 8 (o + len))⟩)

/-- `signaturetype.replace(" ", "_")`. -/
def replUS (l : Buf) : Buf := l.map (fun b => if b.val = 32 then (95 : Fin 256) else b)

/-- `getattr(module, "{}Type".format(sig))`: the only module attributes
of that shape are the seven element classes, keyed by their four-byte
signatures (after the space-to-underscore replacement). -/
def registry (key : Buf) : Option ElemKind :=
  if key = [109, 108, 117, 99] then some .mlucK
  else if key = [99, 117, 114, 118] then some .curvK
  else if key = [112, 97, 114, 97] then some .paraK
  else if key = [100, 101, 115, 99] then some .descK
  else if key = [116, 101, 120, 116] then some .textK
  else if key = [88, 89, 90, 95] then some .xyzK
  else if key = [115, 102, 51, 50] then some .sf32K
  else none

/-- `signatureclass(offset, size, buffer)`: dispatch to the selected
element decoder. -/
def elemRead (mem : ℚ × ℚ) (k : ElemKind) (o len : Nat) (buf : Buf) : Except PyExc IccElem :=
  match k with
  | .mlucK => (mlucRead o len buf).map IccElem.mlucE
  | .curvK => (curvRead o len buf).map IccElem.curvE
  | .paraK => (paraRead o len buf).map IccElem.paraE
  | .descK => (descRead o len buf).map IccElem.descE
  | .textK => (textRead o len buf).map IccElem.textE
  | .xyzK => (xyzTypeRead mem o len buf).map IccElem.xyzE
  | .sf32K => (sf32Read o len buf).map IccElem.sf32E

/-- `except AttributeError: pass` around the dispatch in
`iccTag.read`: only `AttributeError` leaves `_type` at `None`; every
other exception escapes to the outer handler. -/
def catchAttr (e : Except PyExc (Option IccElem)) : Except PyExc (Option IccElem) :=
  match e with
  | .error .attrErr => .ok none
  | x => x

/-- One decoded tag-table entry. -/
structure IccTag where
  tagsignature : Buf
  tagoffset : Nat
  tagsize : Nat
  type : Option IccElem
deriving DecidableEq, Repr

/-- `iccTag.read` for the 12-byte row at offset `o`: reads the entry
triple, peeks the four type-signature bytes at the referenced offset,
dispatches, and wraps any non-`AttributeError` failure in
`ICCFileError`. -/
def iccTagRead (mem : ℚ × ℚ) (buf : Buf) (o : Nat) : Except PyExc IccTag :=
  wrapIcc (do
    let tb := pySlice buf o (o + 12)
    let tsig ← unpack_tagSignature (pySlice tb 0 4)
    let toff ← unpack_uInt32Number (pySlice tb 4 8)
    let tsize ← unpack_uInt32Number (pySlice tb 8 12)
    let ty ← catchAttr (do
      let st ← unpack_tagSignature (pySlice buf toff (toff + 4))
      match registry (replUS st) with
      | none => .error .attrErr
      | some k => (elemRead mem k toff tsize buf).map some)
    .ok ⟨tsig, toff, tsize, ty⟩)

/-- Decoded tag table. -/
structure TagTable where
  tagcount : Nat
  tags : List IccTag
deriving DecidableEq, Repr

/-- The tag loop of `iccTagTable.read`: `n` entries starting at row
offset `start`, 12 bytes apart, in table order. -/
def readTagList (mem : ℚ × ℚ) (buf : Buf) (start : Nat) : Nat → Except PyExc (List IccTag)
  | 0 => .ok []
  | Nat.succ n => do
    let t ← iccTagRead mem buf start
    let rest ← readTagList mem buf (start + 12) n
    .ok (t :: rest)

/-- `iccTagTable.read`: the count at offset 128, then the rows at
`count * 12 + 132`; any failing tag aborts the whole table read. -/
def iccTagTableRead (mem : ℚ × ℚ) (buf : Buf) : Except PyExc TagTable :=
  wrapIcc (do
    let cnt ← unpack_uInt32Number (pySlice buf 128 132)
    let tags ← readTagList mem buf 132 cnt
    .ok ⟨cnt, tags⟩)

/-- The six verbatim fields of `iccDateTimeNumber`. -/
structure DateTimeVal where
  year : Nat
  month : Nat
  day : Nat
  hour : Nat
  minute : Nat
  second : Nat
deriving DecidableEq, Repr

/-- Gregorian leap year, as `datetime.datetime` uses it. -/
def leapYear (y : Nat) : Bool := y % 4 = 0 && (decide (y % 100 ≠ 0) || y % 400 = 0)

/-- Days in a month, as `datetime.datetime` validates them. -/
def daysInMonth (y mo : Nat) : Nat :=
  if mo = 2 then (if leapYear y then 29 else 28)
  else if mo = 4 ∨ mo = 6 ∨ mo = 9 ∨ mo = 11 then 30
  else 31

/-- The validity check `datetime.datetime(y, mo, d, h, mi, s)`
performs (raising `ValueError` otherwise). -/
def validDateTime (y mo d h mi s : Nat) : Bool :=
  1 ≤ y && y ≤ 9999 && 1 ≤ mo && mo ≤ 12 && 1 ≤ d && d ≤ daysInMonth y mo
    && h ≤ 23 && mi ≤ 59 && s ≤ 59

/-- `iccProfileSize.read`: u32 at slice 0..4. -/
def iccProfileSizeRead (buf : Buf) : Except PyExc Nat :=
  wrapIcc (unpack_uInt32Number (pySlice buf 0 4))

/-- `iccPreferredCMMType.read`: tag signature at slice 4..8. -/
def iccPreferredCMMTypeRead (buf : Buf) : Except PyExc Buf :=
  wrapIcc (unpack_tagSignature (pySlice buf 4 8))

/-- `iccProfileVersion.read`: signed byte 8 as major, the high and low
nibbles of signed byte 9 (Python `>>`/`&` on the signed value), and the
native-order u16 at 10..12 as reserved. -/
def iccProfileVersionRead (buf : Buf) : Except PyExc (ℤ × ℤ × ℤ × Nat) :=
  wrapIcc (do
    let vb := pySlice buf 8 12
    let major ← unpack_int8 (pySlice vb 0 1)
    let b1 ← unpack_int8 (pySlice vb 1 2)
    let res ← unpack_nativeU16 (pySlice vb 2 4)
    .ok (major, Int.fdiv b1 16, Int.emod b1 16, res))

/-- `iccProfileDeviceClass.read`: tag at slice 12..16 plus its table
description. -/
def iccProfileDeviceClassRead (buf : Buf) : Except PyExc (Buf × String) :=
  wrapIcc (do
    let b := pySlice buf 12 16
    let sig ← unpack_tagSignature (pySlice b 0 4)
    .ok (sig, profileClassDescription sig))

/-- `iccDataColorSpace.read`: tag at slice 16..20 plus description. -/
def iccDataColorSpaceRead (buf : Buf) : Except PyExc (Buf × String) :=
  wrapIcc (do
    let b := pySlice buf 16 20
    let sig ← unpack_tagSignature (pySlice b 0 4)
    .ok (sig, colorSpaceDescription sig))

/-- `iccPCS.read`: tag at slice 20..24 plus description. -/
def iccPCSRead (buf : Buf) : Except PyExc (Buf × String) :=
  wrapIcc (do
    let b := pySlice buf 20 24
    let sig ← unpack_tagSignature (pySlice b 0 4)
    .ok (sig, colorSpaceDescription sig))

/-- `iccDateTimeNumber.read`: six big-endian u16 fields at slice
24..36; an invalid calendar date raises `ValueError`, which the method
catches itself, leaving `_datetime` at `None`; any other failure
becomes `ICCFileError`. -/
def iccDateTimeNumberRead (buf : Buf) : Except PyExc (Option DateTimeVal) :=
  match (do
    let db := pySlice buf 24 36
    let y ← unpack_uInt16Number (pySlice db 0 2)
    let mo ← unpack_uInt16Number (pySlice db 2 4)
    let d ← unpack_uInt16Number (pySlice db 4 6)
    let h ← unpack_uInt16Number (pySlice db 6 8)
    let mi ← unpack_uInt16Number (pySlice db 8 10)
    let s ← unpack_uInt16Number (pySlice db 10 12)
    if validDateTime y mo d h mi s then
      Except.ok (some (⟨y, mo, d, h, mi, s⟩ : DateTimeVal))
    else Except.error PyExc.valErr : Except PyExc (Option DateTimeVal)) with
  | .ok v => .ok v
  | .error .valErr => .ok none
  | .error _ => .error .iccErr

/-- `iccProfileFileSignature.read`: tag signature at slice 36..40,
raising `ICCFileError` unless it equals `acsp`. -/
def iccProfileFileSignatureRead (buf : Buf) : Except PyExc Buf :=
  wrapIcc (do
    let sig ← unpack_tagSignature (pySlice buf 36 40)
    if sig = [97, 99, 115, 112] then .ok sig else .error .iccErr)

/-- `iccPrimaryPlatform.read`: tag at slice 40..44 plus description. -/
def iccPrimaryPlatformRead (buf : Buf) : Except PyExc (Buf × String) :=
  wrapIcc (do
    let b := pySlice buf 40 44
    let sig ← unpack_tagSignature (pySlice b 0 4)
    .ok (sig, primaryPlatformDescription sig))

/-- `iccProfileFlags.read`: `struct.unpack("=4b", s[0:4])[0]` - four
signed bytes of which only the FIRST is kept, i.e. the signed value of
the single byte at offset 44, not the u32 bitfield. -/
def iccProfileFlagsRead (buf : Buf) : Except PyExc ℤ :=
  wrapIcc (do
    let fb := pySlice buf 44 48
    match pySlice fb 0 4 with
    | [b0, _, _, _] => .ok (sbyte b0)
    | _ => .error .structErr)

/-- `iccDeviceManufacturer.read`: tag at slice 48..52. -/
def iccDeviceManufacturerRead (buf : Buf) : Except PyExc Buf :=
  wrapIcc (do
    let b := pySlice buf 48 52
    unpack_tagSignature (pySlice b 0 4))

/-- `iccDeviceModel.read`: tag at slice 52..56. -/
def iccDeviceModelRead (buf : Buf) : Except PyExc Buf :=
  wrapIcc (do
    let b := pySlice buf 52 56
    unpack_tagSignature (pySlice b 0 4))

/-- `iccDeviceAttributes.read`: `struct.unpack("=8b", s[0:8])[0]` -
eight signed bytes of which only the FIRST is kept, i.e. the signed
value of the single byte at offset 56, not the u64 bitfield. -/
def iccDeviceAttributesRead (buf : Buf) : Except PyExc ℤ :=
  wrapIcc (do
    let ab := pySlice buf 56 64
    match pySlice ab 0 8 with
    | [b0, _, _, _, _, _, _, _] => .ok (sbyte b0)
    | _ => .error .structErr)

/-- `iccRenderingIntent.read`: u32 at slice 64..68 plus its table
description; a value outside the table raises `KeyError`, converted to
`ICCFileError` by the wrapper. -/
def iccRenderingIntentRead (buf : Buf) : Except PyExc (Nat × String) :=
  wrapIcc (do
    let rb := pySlice buf 64 68
    let v ← unpack_uInt32Number (pySlice rb 0 4)
    match renderingIntentDescription v with
    | some d => .ok (v, d)
    | none => .error .keyErr)

/-- `iccPCSIlluminant.read`: an `XYZNumber` from slice 68..80. -/
def iccPCSIlluminantRead (mem : ℚ × ℚ) (buf : Buf) : Except PyExc XYZval :=
  wrapIcc (XYZNumberRead mem (pySlice buf 68 80))

/-- `iccProfileCreator.read`: tag at slice 80..84. -/
def iccProfileCreatorRead (buf : Buf) : Except PyExc Buf :=
  wrapIcc (do
    let b := pySlice buf 80 84
    unpack_tagSignature (pySlice b 0 4))

/-- `iccProfileID.read`: `struct.unpack("{n}s", s)` with `n` the
actual slice length - never fails. -/
def iccProfileIDRead (buf : Buf) : Except PyExc Buf :=
  wrapIcc (.ok (pySlice buf 84 100))

/-- `iccReserved.read`: the raw slice 100..128 - never fails. -/
def iccReservedRead (buf : Buf) : Except PyExc Buf :=
  wrapIcc (.ok (pySlice buf 100 128))

/-- The decoded state of an `iccProfile` after `read`: one entry per
member, in the `vars(self)` iteration order of `__init__`.  A field is
`none` when its `read` raised and was skipped by the per-field handler
(the source prints a `Skip <class>` diagnostic and keeps the member's
initial state). -/
structure IccProfile where
  profilesize : Option Nat
  preferredcmmtype : Option Buf
  profileversion : Option (ℤ × ℤ × ℤ × Nat)
  profiledeviceclass : Option (Buf × String)
  datacolorspace : Option (Buf × String)
  pcs : Option (Buf × String)
  datetimenumber : Option (Option DateTimeVal)
  profilefilesignature : Option Buf
  primaryplatform : Option (Buf × String)
  profileflags : Option ℤ
  devicemanufacturer : Option Buf
  devicemodel : Option Buf
  deviceattributes : Option ℤ
  renderingintent : Option (Nat × String)
  pcsilluminant : Option XYZval
  profilecreator : Option Buf
  profileid : Option Buf
  reserved : Option Buf
  tagtable : Option TagTable
deriving DecidableEq, Repr

/-- The freshly constructed profile: nothing decoded yet. -/
def initProfile : IccProfile :=
  ⟨none, none, none, none, none, none, none, none, none, none,
   none, none, none, none, none, none, none, none, none⟩

/-- One step of the `iccProfile.read` loop: a member's `read` as a
state transformer (failure leaves the state unchanged at the call
site's `except`). -/
abbrev Updater := (ℚ × ℚ) → Buf → IccProfile → Except PyExc IccProfile

def updProfilesize : Updater := fun _ buf st =>
  (iccProfileSizeRead buf).map (fun v => { st with profilesize := some v })

def updPreferredcmmtype : Updater := fun _ buf st =>
  (iccPreferredCMMTypeRead buf).map (fun v => { st with preferredcmmtype := some v })

def updProfileversion : Updater := fun _ buf st =>
  (iccProfileVersionRead buf).map (fun v => { st with profileversion := some v })

def updProfiledeviceclass : Updater := fun _ buf st =>
  (iccProfileDeviceClassRead buf).map (fun v => { st with profiledeviceclass := some v })

def updDatacolorspace : Updater := fun _ buf st =>
  (iccDataColorSpaceRead buf).map (fun v => { st with datacolorspace := some v })

def updPcs : Updater := fun _ buf st =>
  (iccPCSRead buf).map (fun v => { st with pcs := some v })

def updDatetimenumber : Updater := fun _ buf st =>
  (iccDateTimeNumberRead buf).map (fun v => { st with datetimenumber := some v })

def updProfilefilesignature : Updater := fun _ buf st =>
  (iccProfileFileSignatureRead buf).map (fun v => { st with profilefilesignature := some v })

def updPrimaryplatform : Updater := fun _ buf st =>
  (iccPrimaryPlatformRead buf).map (fun v => { st with primaryplatform := some v })

def updProfileflags : Updater := fun _ buf st =>
  (iccProfileFlagsRead buf).map (fun v => { st with profileflags := some v })

def updDevicemanufacturer : Updater := fun _ buf st =>
  (iccDeviceManufacturerRead buf).map (fun v => { st with devicemanufacturer := some v })

def updDevicemodel : Updater := fun _ buf st =>
  (iccDeviceModelRead buf).map (fun v => { st with devicemodel := some v })

def updDeviceattributes : Updater := fun _ buf st =>
  (iccDeviceAttributesRead buf).map (fun v => { st with deviceattributes := some v })

def updRenderingintent : Updater := fun _ buf st =>
  (iccRenderingIntentRead buf).map (fun v => { st with renderingintent := some v })

def updPcsilluminant : Updater := fun mem buf st =>
  (iccPCSIlluminantRead mem buf).map (fun v => { st with pcsilluminant := some v })

def updProfilecreator : Updater := fun _ buf st =>
  (iccProfileCreatorRead buf).map (fun v => { st with profilecreator := some v })

def updProfileid : Updater := fun _ buf st =>
  (iccProfileIDRead buf).map (fun v => { st with profileid := some v })

def updReserved : Updater := fun _ buf st =>
  (iccReservedRead buf).map (fun v => { st with reserved := some v })

def updTagtable : Updater := fun mem buf st =>
  (iccTagTableRead mem buf).map (fun v => { st with tagtable := some v })

/-- The members of `iccProfile` in `vars(self)` order. -/
def profileUpdaters : List Updater :=
  [updProfilesize, updPreferredcmmtype, updProfileversion, updProfiledeviceclass,
   updDatacolorspace, updPcs, updDatetimenumber, updProfilefilesignature,
   updPrimaryplatform, updProfileflags, updDevicemanufacturer, updDevicemodel,
   updDeviceattributes, updRenderingintent, updPcsilluminant, updProfilecreator,
   updProfileid, updReserved, updTagtable]

/-- The `try: var.read(buffer) except Exception: continue` around each
member read. -/
def applyUpdater (mem : ℚ × ℚ) (buf : Buf) (st : IccProfile) (u : Updater) : IccProfile :=
  match u mem buf st with
  | .ok st2 => st2
  | .error _ => st

/-- `iccProfile.read`: every member's `read` in declaration order, each
inside the catch-all handler; the loop itself never raises. -/
def iccProfileRead (mem : ℚ × ℚ) (buf : Buf) : IccProfile :=
  profileUpdaters.foldl (applyUpdater mem buf) initProfile

/-- Modelled from the spec: the full big-endian bitfield over a byte
range, the u32 (bytes 44..48) and u64 (bytes 56..64) readings the
spec's header table prescribes for profile flags and device
attributes.  Used only to compare the spec's semantics with the
source's single-byte reads. -/
def specBitfieldBE (l : Buf) : Nat := l.foldl (fun a b => a * 256 + b.val) 0

/-- A minimal well-formed 128-byte header: `acsp` at 36..40, rendering
intent 1 at 64..68, PCS-illuminant X = 1.0 at 68..72 (nonzero sum),
zeros elsewhere. -/
def hdr128 : Buf :=
  zeros 36 ++ [97, 99, 115, 112] ++ zeros 24 ++ [0, 0, 0, 1] ++ [0, 1, 0, 0] ++ zeros 56

/-- Two-tag profile: both payloads are well-formed `curv` elements with
two u16 samples each. -/
def c1goodBuf : Buf :=
  hdr128 ++ [0, 0, 0, 2]
    ++ [65, 84, 82, 49, 0, 0, 0, 156, 0, 0, 0, 16]
    ++ [66, 84, 82, 50, 0, 0, 0, 172, 0, 0, 0, 16]
    ++ [99, 117, 114, 118, 0, 0, 0, 0, 0, 0, 0, 2, 17, 17, 34, 34]
    ++ [99, 117, 114, 118, 0, 0, 0, 0, 0, 0, 0, 2, 51, 51, 68, 68]

/-- Same profile as `c1goodBuf` except that the first tag's `curv`
payload declares 100 entries (bytes 164..168), which its 16-byte slice
cannot hold, so the first element decoder fails. -/
def c1badBuf : Buf :=
  hdr128 ++ [0, 0, 0, 2]
    ++ [65, 84, 82, 49, 0, 0, 0, 156, 0, 0, 0, 16]
    ++ [66, 84, 82, 50, 0, 0, 0, 172, 0, 0, 0, 16]
    ++ [99, 117, 114, 118, 0, 0, 0, 0, 0, 0, 0, 100, 17, 17, 34, 34]
    ++ [99, 117, 114, 118, 0, 0, 0, 0, 0, 0, 0, 2, 51, 51, 68, 68]

/-- The E2-style input: `ACSP` instead of `acsp` at 36..40, otherwise a
decodable header and an empty tag table. -/
def e2buf : Buf :=
  zeros 36 ++ [65, 67, 83, 80] ++ zeros 24 ++ [0, 0, 0, 1] ++ [0, 1, 0, 0] ++ zeros 56
    ++ [0, 0, 0, 0]

/-- A buffer whose header is truncated after 20 bytes. -/
def truncBuf : Buf := zeros 20

/-- One tag whose referenced data starts with the unregistered
signature `ZZZZ` and whose declared size is `2^32 - 1`, far past the
end of the 148-byte buffer. -/
def c3buf : Buf :=
  hdr128 ++ [0, 0, 0, 1]
    ++ [100, 101, 115, 99, 0, 0, 0, 144, 255, 255, 255, 255]
    ++ [90, 90, 90, 90]

/-- A 12-byte `curv` element declaring one entry but providing no bytes
for its u8Fixed8 value. -/
def c4curvBuf : Buf := [99, 117, 114, 118, 0, 0, 0, 0, 0, 0, 0, 1]

/-- A 16-byte `curv` element with two u16 samples, `0x0000` and
`0xFFFF`. -/
def c4wBuf : Buf := [99, 117, 114, 118, 0, 0, 0, 0, 0, 0, 0, 2, 0, 0, 255, 255]

/-- Twelve bytes encoding the s15Fixed16 triple X=1.0, Y=2.0, Z=-3.0,
whose sum is zero. -/
def c5zbuf : Buf := [0, 1, 0, 0, 0, 2, 0, 0, 255, 253, 0, 0]

/-- Twelve bytes encoding the s15Fixed16 triple X=1.0, Y=2.0, Z=1.0,
whose sum is 4. -/
def c5nbuf : Buf := [0, 1, 0, 0, 0, 2, 0, 0, 0, 1, 0, 0]

/-- One tag `tag1` of size 8 whose referenced data starts with the
unregistered signature `ZZZZ`. -/
def c6buf : Buf :=
  hdr128 ++ [0, 0, 0, 1]
    ++ [116, 97, 103, 49, 0, 0, 0, 144, 0, 0, 0, 8]
    ++ [90, 90, 90, 90, 0, 0, 0, 0]

/-- `hdr128` followed by four zero bytes. -/
def c7a : Buf := hdr128 ++ [0, 0, 0, 0]

/-- `hdr128` followed by four different bytes: agrees with `c7a` on
bytes 0..128. -/
def c7b : Buf := hdr128 ++ [1, 2, 3, 4]

/-- A header whose profile-flags bytes 44..48 are `FF 00 00 01` and
whose device-attributes bytes 56..64 are `FF 00 00 00 00 00 00 01`. -/
def c9buf : Buf :=
  zeros 44 ++ [255, 0, 0, 1] ++ zeros 8 ++ [255, 0, 0, 0, 0, 0, 0, 1] ++ zeros 64

theorem wrapIcc_ok_iff {α : Type} (e : Except PyExc α) (a : α) :
    wrapIcc e = .ok a ↔ e = .ok a := by
  cases e <;> simp [wrapIcc]

theorem wrapIcc_error_eq {α : Type} (e : Except PyExc α) (x : PyExc)
    (h : wrapIcc e = .error x) : x = .iccErr := by
  cases e <;> simp [wrapIcc] at h
  exact h.symm

theorem except_bind_ok_red {α β : Type} (a : α) (f : α → Except PyExc β) :
    (Except.ok a >>= f) = f a := rfl

theorem except_bind_error_red {α β : Type} (x : PyExc) (f : α → Except PyExc β) :
    ((Except.error x : Except PyExc α) >>= f) = Except.error x := rfl

theorem exceptBind_ok {α β : Type} (e : Except PyExc α) (f : α → Except PyExc β) (b : β)
    (h : (e >>= f) = .ok b) : ∃ a, e = .ok a ∧ f a = .ok b := by
  cases e with
  | ok a => exact ⟨a, rfl, h⟩
  | error x => rw [except_bind_error_red] at h; cases h

theorem exceptMap_ok {α β : Type} (e : Except PyExc α) (f : α → β) (b : β)
    (h : e.map f = .ok b) : ∃ a, e = .ok a ∧ f a = b := by
  cases e with
  | ok a =>
    refine ⟨a, rfl, ?_⟩
    simpa [Except.map] using h
  | error x => simp [Except.map] at h

theorem toOption_some {α : Type} (e : Except PyExc α) (a : α)
    (h : e.toOption = some a) : e = .ok a := by
  cases e <;> simp_all [Except.toOption]

theorem unpack_tagSignature_ok (s v : Buf) (h : unpack_tagSignature s = .ok v) :
    v = s ∧ s.length = 4 := by
  unfold unpack_tagSignature at h
  by_cases h4 : s.length = 4
  · simp only [h4, if_true] at h
    by_cases hv : utf8Valid s
    · simp only [hv, if_true] at h
      cases h
      exact ⟨rfl, h4⟩
    · simp [hv] at h
  · simp [h4] at h

theorem unpack_tagSignature_error_ne_attr (s : Buf) (x : PyExc)
    (h : unpack_tagSignature s = .error x) : x ≠ .attrErr := by
  unfold unpack_tagSignature at h
  by_cases h4 : s.length = 4 <;> by_cases hv : utf8Valid s <;>
    simp_all <;> subst h <;> simp

theorem catchAttr_ok (e : Except PyExc (Option IccElem)) (v : Option IccElem)
    (h : catchAttr e = .ok v) :
    e = .ok v ∨ (e = .error .attrErr ∧ v = none) := by
  cases e with
  | ok a => exact Or.inl h
  | error x =>
    cases x <;> simp [catchAttr] at h
    exact Or.inr ⟨rfl, h.symm⟩

theorem pySlice_length (l : Buf) (a b : Nat) :
    (pySlice l a b).length = min (b - a) (l.length - a) := by
  simp [pySlice]

theorem pySlice_congr (b1 b2 : Buf) (a c : Nat) (hc : c ≤ 128)
    (h : b1.take 128 = b2.take 128) : pySlice b1 a c = pySlice b2 a c := by
  have key : ∀ l : Buf, pySlice l a c = ((l.take 128).drop a).take (c - a) := by
    intro l
    rw [List.drop_take, List.take_take, pySlice]
    congr 1
    omega
  rw [key b1, key b2, h]

theorem groupU16_length : ∀ s : Buf, (groupU16 s).length = s.length / 2
  | [] => by simp [groupU16]
  | [_] => by simp [groupU16]
  | a :: b :: r => by
    have ih := groupU16_length r
    simp only [groupU16, List.length_cons, ih]
    omega

theorem groupU16_le : ∀ s : Buf, ∀ n ∈ groupU16 s, n ≤ 65535
  | [] => by simp [groupU16]
  | [_] => by simp [groupU16]
  | a :: b :: r => by
    intro n hn
    simp only [groupU16, List.mem_cons] at hn
    rcases hn with h | h
    · have ha := a.isLt
      have hb := b.isLt
      omega
    · exact groupU16_le r n h

theorem unpack_u8Fixed8_short (s : Buf) (h : s.length ≤ 1) :
    unpack_u8Fixed8Number s = [] := by
  match s with
  | [] => rfl
  | [_] => rfl
  | a :: b :: r => simp [List.length_cons] at h

theorem applyUpd_profilesize (mem : ℚ × ℚ) (buf : Buf) (st : IccProfile)
    (hn : st.profilesize = none) :
    applyUpdater mem buf st updProfilesize
      = { st with profilesize := (iccProfileSizeRead buf).toOption } := by
  unfold applyUpdater updProfilesize
  cases h : iccProfileSizeRead buf with
  | ok v => simp [h, Except.map, Except.toOption]
  | error x =>
    simp only [h, Except.map, Except.toOption]
    cases st
    simp_all

theorem applyUpd_preferredcmmtype (mem : ℚ × ℚ) (buf : Buf) (st : IccProfile)
    (hn : st.preferredcmmtype = none) :
    applyUpdater mem buf st updPreferredcmmtype
      = { st with preferredcmmtype := (iccPreferredCMMTypeRead buf).toOption } := by
  unfold applyUpdater updPreferredcmmtype
  cases h : iccPreferredCMMTypeRead buf with
  | ok v => simp [h, Except.map, Except.toOption]
  | error x =>
    simp only [h, Except.map, Except.toOption]
    cases st
    simp_all

theorem applyUpd_profileversion (mem : ℚ × ℚ) (buf : Buf) (st : IccProfile)
    (hn : st.profileversion = none) :
    applyUpdater mem buf st updProfileversion
      = { st with profileversion := (iccProfileVersionRead buf).toOption } := by
  unfold applyUpdater updProfileversion
  cases h : iccProfileVersionRead buf with
  | ok v => simp [h, Except.map, Except.toOption]
  | error x =>
    simp only [h, Except.map, Except.toOption]
    cases st
    simp_all

theorem applyUpd_profiledeviceclass (mem : ℚ × ℚ) (buf : Buf) (st : IccProfile)
    (hn : st.profiledeviceclass = none) :
    applyUpdater mem buf st updProfiledeviceclass
      = { st with profiledeviceclass := (iccProfileDeviceClassRead buf).toOption } := by
  unfold applyUpdater updProfiledeviceclass
  cases h : iccProfileDeviceClassRead buf with
  | ok v => simp [h, Except.map, Except.toOption]
  | error x =>
    simp only [h, Except.map, Except.toOption]
    cases st
    simp_all

theorem applyUpd_datacolorspace (mem : ℚ × ℚ) (buf : Buf) (st : IccProfile)
    (hn : st.datacolorspace = none) :
    applyUpdater mem buf st updDatacolorspace
      = { st with datacolorspace := (iccDataColorSpaceRead buf).toOption } := by
  unfold applyUpdater updDatacolorspace
  cases h : iccDataColorSpaceRead buf with
  | ok v => simp [h, Except.map, Except.toOption]
  | error x =>
    simp only [h, Except.map, Except.toOption]
    cases st
    simp_all

theorem applyUpd_pcs (mem : ℚ × ℚ) (buf : Buf) (st : IccProfile)
    (hn : st.pcs = none) :
    applyUpdater mem buf st updPcs
      = { st with pcs := (iccPCSRead buf).toOption } := by
  unfold applyUpdater updPcs
  cases h : iccPCSRead buf with
  | ok v => simp [h, Except.map, Except.toOption]
  | error x =>
    simp only [h, Except.map, Except.toOption]
    cases st
    simp_all

theorem applyUpd_datetimenumber (mem : ℚ × ℚ) (buf : Buf) (st : IccProfile)
    (hn : st.datetimenumber = none) :
    applyUpdater mem buf st updDatetimenumber
      = { st with datetimenumber := (iccDateTimeNumberRead buf).toOption } := by
  unfold applyUpdater updDatetimenumber
  cases h : iccDateTimeNumberRead buf with
  | ok v => simp [h, Except.map, Except.toOption]
  | error x =>
    simp only [h, Except.map, Except.toOption]
    cases st
    simp_all

theorem applyUpd_profilefilesignature (mem : ℚ × ℚ) (buf : Buf) (st : IccProfile)
    (hn : st.profilefilesignature = none) :
    applyUpdater mem buf st updProfilefilesignature
      = { st with profilefilesignature := (iccProfileFileSignatureRead buf).toOption } := by
  unfold applyUpdater updProfilefilesignature
  cases h : iccProfileFileSignatureRead buf with
  | ok v => simp [h, Except.map, Except.toOption]
  | error x =>
    simp only [h, Except.map, Except.toOption]
    cases st
    simp_all

theorem applyUpd_primaryplatform (mem : ℚ × ℚ) (buf : Buf) (st : IccProfile)
    (hn : st.primaryplatform = none) :
    applyUpdater mem buf st updPrimaryplatform
      = { st with primaryplatform := (iccPrimaryPlatformRead buf).toOption } := by
  unfold applyUpdater updPrimaryplatform
  cases h : iccPrimaryPlatformRead buf with
  | ok v => simp [h, Except.map, Except.toOption]
  | error x =>
    simp only [h, Except.map, Except.toOption]
    cases st
    simp_all

theorem applyUpd_profileflags (mem : ℚ × ℚ) (buf : Buf) (st : IccProfile)
    (hn : st.profileflags = none) :
    applyUpdater mem buf st updProfileflags
      = { st with profileflags := (iccProfileFlagsRead buf).toOption } := by
  unfold applyUpdater updProfileflags
  cases h : iccProfileFlagsRead buf with
  | ok v => simp [h, Except.map, Except.toOption]
  | error x =>
    simp only [h, Except.map, Except.toOption]
    cases st
    simp_all

theorem applyUpd_devicemanufacturer (mem : ℚ × ℚ) (buf : Buf) (st : IccProfile)
    (hn : st.devicemanufacturer = none) :
    applyUpdater mem buf st updDevicemanufacturer
      = { st with devicemanufacturer := (iccDeviceManufacturerRead buf).toOption } := by
  unfold applyUpdater updDevicemanufacturer
  cases h : iccDeviceManufacturerRead buf with
  | ok v => simp [h, Except.map, Except.toOption]
  | error x =>
    simp only [h, Except.map, Except.toOption]
    cases st
    simp_all

theorem applyUpd_devicemodel (mem : ℚ × ℚ) (buf : Buf) (st : IccProfile)
    (hn : st.devicemodel = none) :
    applyUpdater mem buf st updDevicemodel
      = { st with devicemodel := (iccDeviceModelRead buf).toOption } := by
  unfold applyUpdater updDevicemodel
  cases h : iccDeviceModelRead buf with
  | ok v => simp [h, Except.map, Except.toOption]
  | error x =>
    simp only [h, Except.map, Except.toOption]
    cases st
    simp_all

theorem applyUpd_deviceattributes (mem : ℚ × ℚ) (buf : Buf) (st : IccProfile)
    (hn : st.deviceattributes = none) :
    applyUpdater mem buf st updDeviceattributes
      = { st with deviceattributes := (iccDeviceAttributesRead buf).toOption } := by
  unfold applyUpdater updDeviceattributes
  cases h : iccDeviceAttributesRead buf with
  | ok v => simp [h, Except.map, Except.toOption]
  | error x =>
    simp only [h, Except.map, Except.toOption]
    cases st
    simp_all

theorem applyUpd_renderingintent (mem : ℚ × ℚ) (buf : Buf) (st : IccProfile)
    (hn : st.renderingintent = none) :
    applyUpdater mem buf st updRenderingintent
      = { st with renderingintent := (iccRenderingIntentRead buf).toOption } := by
  unfold applyUpdater updRenderingintent
  cases h : iccRenderingIntentRead buf with
  | ok v => simp [h, Except.map, Except.toOption]
  | error x =>
    simp only [h, Except.map, Except.toOption]
    cases st
    simp_all

theorem applyUpd_pcsilluminant (mem : ℚ × ℚ) (buf : Buf) (st : IccProfile)
    (hn : st.pcsilluminant = none) :
    applyUpdater mem buf st updPcsilluminant
      = { st with pcsilluminant := (iccPCSIlluminantRead mem buf).toOption } := by
  unfold applyUpdater updPcsilluminant
  cases h : iccPCSIlluminantRead mem buf with
  | ok v => simp [h, Except.map, Except.toOption]
  | error x =>
    simp only [h, Except.map, Except.toOption]
    cases st
    simp_all

theorem applyUpd_profilecreator (mem : ℚ × ℚ) (buf : Buf) (st : IccProfile)
    (hn : st.profilecreator = none) :
    applyUpdater mem buf st updProfilecreator
      = { st with profilecreator := (iccProfileCreatorRead buf).toOption } := by
  unfold applyUpdater updProfilecreator
  cases h : iccProfileCreatorRead buf with
  | ok v => simp [h, Except.map, Except.toOption]
  | error x =>
    simp only [h, Except.map, Except.toOption]
    cases st
    simp_all

theorem applyUpd_profileid (mem : ℚ × ℚ) (buf : Buf) (st : IccProfile)
    (hn : st.profileid = none) :
    applyUpdater mem buf st updProfileid
      = { st with profileid := (iccProfileIDRead buf).toOption } := by
  unfold applyUpdater updProfileid
  cases h : iccProfileIDRead buf with
  | ok v => simp [h, Except.map, Except.toOption]
  | error x =>
    simp only [h, Except.map, Except.toOption]
    cases st
    simp_all

theorem applyUpd_reserved (mem : ℚ × ℚ) (buf : Buf) (st : IccProfile)
    (hn : st.reserved = none) :
    applyUpdater mem buf st updReserved
      = { st with reserved := (iccReservedRead buf).toOption } := by
  unfold applyUpdater updReserved
  cases h : iccReservedRead buf with
  | ok v => simp [h, Except.map, Except.toOption]
  | error x =>
    simp only [h, Except.map, Except.toOption]
    cases st
    simp_all

theorem applyUpd_tagtable (mem : ℚ × ℚ) (buf : Buf) (st : IccProfile)
    (hn : st.tagtable = none) :
    applyUpdater mem buf st updTagtable
      = { st with tagtable := (iccTagTableRead mem buf).toOption } := by
  unfold applyUpdater updTagtable
  cases h : iccTagTableRead mem buf with
  | ok v => simp [h, Except.map, Except.toOption]
  | error x =>
    simp only [h, Except.map, Except.toOption]
    cases st
    simp_all

theorem iccProfileRead_eq (mem : ℚ × ℚ) (buf : Buf) :
    iccProfileRead mem buf =
      { profilesize := (iccProfileSizeRead buf).toOption,
        preferredcmmtype := (iccPreferredCMMTypeRead buf).toOption,
        profileversion := (iccProfileVersionRead buf).toOption,
        profiledeviceclass := (iccProfileDeviceClassRead buf).toOption,
        datacolorspace := (iccDataColorSpaceRead buf).toOption,
        pcs := (iccPCSRead buf).toOption,
        datetimenumber := (iccDateTimeNumberRead buf).toOption,
        profilefilesignature := (iccProfileFileSignatureRead buf).toOption,
        primaryplatform := (iccPrimaryPlatformRead buf).toOption,
        profileflags := (iccProfileFlagsRead buf).toOption,
        devicemanufacturer := (iccDeviceManufacturerRead buf).toOption,
        devicemodel := (iccDeviceModelRead buf).toOption,
        deviceattributes := (iccDeviceAttributesRead buf).toOption,
        renderingintent := (iccRenderingIntentRead buf).toOption,
        pcsilluminant := (iccPCSIlluminantRead mem buf).toOption,
        profilecreator := (iccProfileCreatorRead buf).toOption,
        profileid := (iccProfileIDRead buf).toOption,
        reserved := (iccReservedRead buf).toOption,
        tagtable := (iccTagTableRead mem buf).toOption } := by
  unfold iccProfileRead profileUpdaters
  simp only [List.foldl_cons, List.foldl_nil]
  rw [applyUpd_profilesize _ _ _ rfl]
  rw [applyUpd_preferredcmmtype _ _ _ rfl]
  rw [applyUpd_profileversion _ _ _ rfl]
  rw [applyUpd_profiledeviceclass _ _ _ rfl]
  rw [applyUpd_datacolorspace _ _ _ rfl]
  rw [applyUpd_pcs _ _ _ rfl]
  rw [applyUpd_datetimenumber _ _ _ rfl]
  rw [applyUpd_profilefilesignature _ _ _ rfl]
  rw [applyUpd_primaryplatform _ _ _ rfl]
  rw [applyUpd_profileflags _ _ _ rfl]
  rw [applyUpd_devicemanufacturer _ _ _ rfl]
  rw [applyUpd_devicemodel _ _ _ rfl]
  rw [applyUpd_deviceattributes _ _ _ rfl]
  rw [applyUpd_renderingintent _ _ _ rfl]
  rw [applyUpd_pcsilluminant _ _ _ rfl]
  rw [applyUpd_profilecreator _ _ _ rfl]
  rw [applyUpd_profileid _ _ _ rfl]
  rw [applyUpd_reserved _ _ _ rfl]
  rw [applyUpd_tagtable _ _ _ rfl]

theorem profileRead_profilesize (mem : ℚ × ℚ) (buf : Buf) :
    (iccProfileRead mem buf).profilesize = (iccProfileSizeRead buf).toOption := by
  rw [iccProfileRead_eq]

theorem profileRead_preferredcmmtype (mem : ℚ × ℚ) (buf : Buf) :
    (iccProfileRead mem buf).preferredcmmtype = (iccPreferredCMMTypeRead buf).toOption := by
  rw [iccProfileRead_eq]

theorem profileRead_profileversion (mem : ℚ × ℚ) (buf : Buf) :
    (iccProfileRead mem buf).profileversion = (iccProfileVersionRead buf).toOption := by
  rw [iccProfileRead_eq]

theorem profileRead_profiledeviceclass (mem : ℚ × ℚ) (buf : Buf) :
    (iccProfileRead mem buf).profiledeviceclass = (iccProfileDeviceClassRead buf).toOption := by
  rw [iccProfileRead_eq]

theorem profileRead_datacolorspace (mem : ℚ × ℚ) (buf : Buf) :
    (iccProfileRead mem buf).datacolorspace = (iccDataColorSpaceRead buf).toOption := by
  rw [iccProfileRead_eq]

theorem profileRead_pcs (mem : ℚ × ℚ) (buf : Buf) :
    (iccProfileRead mem buf).pcs = (iccPCSRead buf).toOption := by
  rw [iccProfileRead_eq]

theorem profileRead_datetimenumber (mem : ℚ × ℚ) (buf : Buf) :
    (iccProfileRead mem buf).datetimenumber = (iccDateTimeNumberRead buf).toOption := by
  rw [iccProfileRead_eq]

theorem profileRead_profilefilesignature (mem : ℚ × ℚ) (buf : Buf) :
    (iccProfileRead mem buf).profilefilesignature = (iccProfileFileSignatureRead buf).toOption := by
  rw [iccProfileRead_eq]

theorem profileRead_primaryplatform (mem : ℚ × ℚ) (buf : Buf) :
    (iccProfileRead mem buf).primaryplatform = (iccPrimaryPlatformRead buf).toOption := by
  rw [iccProfileRead_eq]

theorem profileRead_profileflags (mem : ℚ × ℚ) (buf : Buf) :
    (iccProfileRead mem buf).profileflags = (iccProfileFlagsRead buf).toOption := by
  rw [iccProfileRead_eq]

theorem profileRead_devicemanufacturer (mem : ℚ × ℚ) (buf : Buf) :
    (iccProfileRead mem buf).devicemanufacturer = (iccDeviceManufacturerRead buf).toOption := by
  rw [iccProfileRead_eq]

theorem profileRead_devicemodel (mem : ℚ × ℚ) (buf : Buf) :
    (iccProfileRead mem buf).devicemodel = (iccDeviceModelRead buf).toOption := by
  rw [iccProfileRead_eq]

theorem profileRead_deviceattributes (mem : ℚ × ℚ) (buf : Buf) :
    (iccProfileRead mem buf).deviceattributes = (iccDeviceAttributesRead buf).toOption := by
  rw [iccProfileRead_eq]

theorem profileRead_renderingintent (mem : ℚ × ℚ) (buf : Buf) :
    (iccProfileRead mem buf).renderingintent = (iccRenderingIntentRead buf).toOption := by
  rw [iccProfileRead_eq]

theorem profileRead_pcsilluminant (mem : ℚ × ℚ) (buf : Buf) :
    (iccProfileRead mem buf).pcsilluminant = (iccPCSIlluminantRead mem buf).toOption := by
  rw [iccProfileRead_eq]

theorem profileRead_profilecreator (mem : ℚ × ℚ) (buf : Buf) :
    (iccProfileRead mem buf).profilecreator = (iccProfileCreatorRead buf).toOption := by
  rw [iccProfileRead_eq]

theorem profileRead_profileid (mem : ℚ × ℚ) (buf : Buf) :
    (iccProfileRead mem buf).profileid = (iccProfileIDRead buf).toOption := by
  rw [iccProfileRead_eq]

theorem profileRead_reserved (mem : ℚ × ℚ) (buf : Buf) :
    (iccProfileRead mem buf).reserved = (iccReservedRead buf).toOption := by
  rw [iccProfileRead_eq]

theorem profileRead_tagtable (mem : ℚ × ℚ) (buf : Buf) :
    (iccProfileRead mem buf).tagtable = (iccTagTableRead mem buf).toOption := by
  rw [iccProfileRead_eq]

theorem readTagList_ok_mem (mem : ℚ × ℚ) (buf : Buf) :
    ∀ (n start : Nat) (l : List IccTag), readTagList mem buf start n = .ok l →
      ∀ t ∈ l, ∃ o, iccTagRead mem buf o = .ok t := by
  intro n
  induction n with
  | zero =>
    intro start l h t ht
    unfold readTagList at h
    cases h
    simp at ht
  | succ k ih =>
    intro start l h t ht
    unfold readTagList at h
    obtain ⟨t1, h1, h2⟩ := exceptBind_ok _ _ _ h
    obtain ⟨rest, h3, h4⟩ := exceptBind_ok _ _ _ h2
    cases h4
    rcases List.mem_cons.mp ht with h5 | h5
    · exact ⟨start, h5 ▸ h1⟩
    · exact ih (start + 12) rest h3 t h5

theorem readTagList_ok_idx (mem : ℚ × ℚ) (buf : Buf) :
    ∀ (n start : Nat) (l : List IccTag), readTagList mem buf start n = .ok l →
      ∀ j, j < n → ∃ t, iccTagRead mem buf (start + 12 * j) = .ok t := by
  intro n
  induction n with
  | zero => intro start l h j hj; omega
  | succ k ih =>
    intro start l h j hj
    unfold readTagList at h
    obtain ⟨t1, h1, h2⟩ := exceptBind_ok _ _ _ h
    obtain ⟨rest, h3, _⟩ := exceptBind_ok _ _ _ h2
    cases j with
    | zero => exact ⟨t1, by simpa using h1⟩
    | succ i =>
      obtain ⟨t, ht⟩ := ih (start + 12) rest h3 i (by omega)
      refine ⟨t, ?_⟩
      have harith : start + 12 + 12 * i = start + 12 * (i + 1) := by ring
      rwa [harith] at ht

theorem iccTagRead_ok_peek (mem : ℚ × ℚ) (buf : Buf) (o : Nat) (t : IccTag)
    (h : iccTagRead mem buf o = .ok t) : t.tagoffset + 4 ≤ buf.length := by
  unfold iccTagRead at h
  rw [wrapIcc_ok_iff] at h
  obtain ⟨sig, hsig, h⟩ := exceptBind_ok _ _ _ h
  obtain ⟨toff, hoff, h⟩ := exceptBind_ok _ _ _ h
  obtain ⟨tsize, hsize, h⟩ := exceptBind_ok _ _ _ h
  obtain ⟨ty, hty, h⟩ := exceptBind_ok _ _ _ h
  cases h
  cases hp : unpack_tagSignature (pySlice buf toff (toff + 4)) with
  | ok st =>
    obtain ⟨-, hlen⟩ := unpack_tagSignature_ok _ _ hp
    have := pySlice_length buf toff (toff + 4)
    rw [hlen] at this
    simp only []
    omega
  | error e =>
    exfalso
    rw [hp, except_bind_error_red] at hty
    rcases catchAttr_ok _ _ hty with h5 | ⟨h5, -⟩
    · cases h5
    · exact unpack_tagSignature_error_ne_attr _ _ hp (by cases h5; rfl)

theorem iccTagTableRead_ok (mem : ℚ × ℚ) (buf : Buf) (tt : TagTable)
    (h : iccTagTableRead mem buf = .ok tt) :
    unpack_uInt32Number (pySlice buf 128 132) = .ok tt.tagcount ∧
    readTagList mem buf 132 tt.tagcount = .ok tt.tags := by
  unfold iccTagTableRead at h
  rw [wrapIcc_ok_iff] at h
  obtain ⟨cnt, h1, h⟩ := exceptBind_ok _ _ _ h
  obtain ⟨tags, h2, h⟩ := exceptBind_ok _ _ _ h
  cases h
  exact ⟨h1, h2⟩

/-- Claim C5 (code bug): `XYZNumber.read` derives xyY with
`numpy.divide(X, s, where=s != 0)` and no `out=` argument, so when
`s = X + Y + Z = 0` the stored `x` and `y` are whatever the
uninitialized result buffer holds (the `mem` parameter), not the `0`
the claim and spec prescribe.  On the triple (1, 2, -3) the decoded
`x`, `y` equal the arbitrary memory contents (shown for two different
memory states), while on the nonzero-sum triple (1, 2, 1) the claimed
equations `x = X/s`, `y = Y/s`, `Y_xyY = Y` do hold. -/
theorem C5_xyY_uninitialized_on_zero_sum :
    XYZNumberRead (9, 7) c5zbuf = .ok ⟨[1, 2, -3], 9, 7, 2⟩
    ∧ XYZNumberRead (0, 0) c5zbuf = .ok ⟨[1, 2, -3], 0, 0, 2⟩
    ∧ XYZNumberRead (9, 7) c5nbuf = .ok ⟨[1, 2, 1], 1 / 4, 1 / 2, 2⟩ := by
  refine ⟨by decide, by decide, by decide⟩

/-- Claim C9 (code bug): the header decoder reads profile flags with
`struct.unpack("=4b", ...)[0]` and device attributes with
`struct.unpack("=8b", ...)[0]`, keeping only the first signed byte
(44 resp. 56) instead of the full big-endian u32/u64 bitfields the
claim (and the source's own `{:032b}`/`{:064b}` repr formats) call
for: on bytes `FF 00 00 01` / `FF 00 ... 01` the code yields `-1`
while the specified bitfields are 4278190081 and
18374686479671623681. -/
theorem C9_flags_attributes_single_byte :
    iccProfileFlagsRead c9buf = .ok (-1)
    ∧ iccDeviceAttributesRead c9buf = .ok (-1)
    ∧ specBitfieldBE (pySlice c9buf 44 48) = 4278190081
    ∧ specBitfieldBE (pySlice c9buf 56 64) = 18374686479671623681 := by
  refine ⟨by decide, by decide, by decide, by decide⟩

/-- Claim C8 counterexample: on a 2-byte view the s15Fixed16 reader
and on a 1-byte view the u8Fixed8 reader return an (empty) value
instead of failing - `numpy.frombuffer(s, dt, len(s) // k)` never
raises on a short view - whereas a struct-based reader such as the
u32 one does fail, as the claim asserts of every reader. -/
theorem C8_numpy_readers_counterexample :
    unpack_s15Fixed16Number [0, 1] = []
    ∧ unpack_u8Fixed8Number [7] = []
    ∧ unpack_uInt32Number [0, 1] = .error .structErr := by
  refine ⟨by decide, by decide, by decide⟩

/-- Claim C1 counterexample: `c1goodBuf` and `c1badBuf` agree except on
bytes 164..168 (the entry count inside the first tag's `curv`
payload).  On the good buffer both tags decode; on the bad buffer the
first tag's element decoder fails and - far from the walk continuing
with only that tag marked failed - the whole tag-table read is
aborted, so the second tag's decoded element is gone as well
(`tagtable = none`), while the header is untouched. -/
theorem C1_walk_isolation_counterexample :
    pySlice c1goodBuf 0 164 = pySlice c1badBuf 0 164
    ∧ pySlice c1goodBuf 168 188 = pySlice c1badBuf 168 188
    ∧ (iccProfileRead (0, 0) c1goodBuf).tagtable = some ⟨2,
        [⟨[65, 84, 82, 49], 156, 16, some (.curvE
            ⟨[99, 117, 114, 118], 0, 2, "1D Curve", some [4369 / 65535, 8738 / 65535]⟩)⟩,
         ⟨[66, 84, 82, 50], 172, 16, some (.curvE
            ⟨[99, 117, 114, 118], 0, 2, "1D Curve", some [13107 / 65535, 17476 / 65535]⟩)⟩]⟩
    ∧ (iccProfileRead (0, 0) c1badBuf).tagtable = none
    ∧ (iccProfileRead (0, 0) c1badBuf).profilefilesignature = some [97, 99, 115, 112] := by
  refine ⟨by decide, by decide, by decide, by decide, by decide⟩

/-- Claim C2 counterexample: a bad file signature (`ACSP`) does NOT
abort the decode - `iccProfile.read` catches the `NotAProfile` error,
records a skip, and keeps decoding: the later header fields and the
tag table of `e2buf` are all decoded, and nothing is returned to the
caller.  Likewise a 20-byte truncated header does not abort: the
fields that fit are decoded and only the rest are skipped. -/
theorem C2_bad_magic_counterexample :
    iccProfileFileSignatureRead e2buf = .error .iccErr
    ∧ (iccProfileRead (0, 0) e2buf).profilefilesignature = none
    ∧ (iccProfileRead (0, 0) e2buf).primaryplatform = some ([0, 0, 0, 0], "None")
    ∧ (iccProfileRead (0, 0) e2buf).renderingintent = some (1, "Media-relative colorimetric")
    ∧ (iccProfileRead (0, 0) e2buf).tagtable = some ⟨0, []⟩
    ∧ (iccProfileRead (0, 0) truncBuf).profilesize = some 0
    ∧ (iccProfileRead (0, 0) truncBuf).profileversion = some (0, 0, 0, 0)
    ∧ (iccProfileRead (0, 0) truncBuf).pcs = none
    ∧ (iccProfileRead (0, 0) truncBuf).tagtable = none := by
  refine ⟨by decide, by decide, by decide, by decide, by decide,
    by decide, by decide, by decide, by decide⟩

/-- Claim C3 counterexample: the 148-byte `c3buf` decodes successfully
with a tag table containing the entry (desc, 144, 4294967295), whose
`offset + size` is vastly larger than the buffer length: the decoder
never checks `offset + size ≤ buffer length`. -/
theorem C3_containment_counterexample :
    (iccProfileRead (0, 0) c3buf).tagtable
      = some ⟨1, [⟨[100, 101, 115, 99], 144, 4294967295, none⟩]⟩
    ∧ c3buf.length = 148
    ∧ ¬(144 + 4294967295 ≤ c3buf.length) := by
  refine ⟨by decide, by decide, by decide⟩

/-- Claim C4 counterexample: a `curv` element whose count is 1 but
whose 12-byte slice holds no value bytes decodes successfully to the
`Power Function` curve with an EMPTY sample array - no single
u8Fixed8 value is produced, contrary to the claim's count = 1
clause. -/
theorem C4_curv_count_one_counterexample :
    curvRead 0 12 c4curvBuf
      = .ok ⟨[99, 117, 114, 118], 0, 1, "Power Function", some []⟩ := by
  decide

/-- Claim C10 (confirmed): `iccProfile.read` runs every member's
`read` inside a per-field `try/except Exception: continue` handler, so
the top-level decode is a total function of the buffer; each field of
the result is exactly its own reader's outcome (`none` marking the
skip recorded when that reader raised), independent of every other
field's failure - including the `acsp` check and the tag-table
walk. -/
theorem C10_profile_read_total_per_field (mem : ℚ × ℚ) (buf : Buf) :
    (iccProfileRead mem buf).profilesize = (iccProfileSizeRead buf).toOption
    ∧ (iccProfileRead mem buf).preferredcmmtype = (iccPreferredCMMTypeRead buf).toOption
    ∧ (iccProfileRead mem buf).profileversion = (iccProfileVersionRead buf).toOption
    ∧ (iccProfileRead mem buf).profiledeviceclass = (iccProfileDeviceClassRead buf).toOption
    ∧ (iccProfileRead mem buf).datacolorspace = (iccDataColorSpaceRead buf).toOption
    ∧ (iccProfileRead mem buf).pcs = (iccPCSRead buf).toOption
    ∧ (iccProfileRead mem buf).datetimenumber = (iccDateTimeNumberRead buf).toOption
    ∧ (iccProfileRead mem buf).profilefilesignature = (iccProfileFileSignatureRead buf).toOption
    ∧ (iccProfileRead mem buf).primaryplatform = (iccPrimaryPlatformRead buf).toOption
    ∧ (iccProfileRead mem buf).profileflags = (iccProfileFlagsRead buf).toOption
    ∧ (iccProfileRead mem buf).devicemanufacturer = (iccDeviceManufacturerRead buf).toOption
    ∧ (iccProfileRead mem buf).devicemodel = (iccDeviceModelRead buf).toOption
    ∧ (iccProfileRead mem buf).deviceattributes = (iccDeviceAttributesRead buf).toOption
    ∧ (iccProfileRead mem buf).renderingintent = (iccRenderingIntentRead buf).toOption
    ∧ (iccProfileRead mem buf).pcsilluminant = (iccPCSIlluminantRead mem buf).toOption
    ∧ (iccProfileRead mem buf).profilecreator = (iccProfileCreatorRead buf).toOption
    ∧ (iccProfileRead mem buf).profileid = (iccProfileIDRead buf).toOption
    ∧ (iccProfileRead mem buf).reserved = (iccReservedRead buf).toOption
    ∧ (iccProfileRead mem buf).tagtable = (iccTagTableRead mem buf).toOption :=
  ⟨profileRead_profilesize mem buf, profileRead_preferredcmmtype mem buf,
   profileRead_profileversion mem buf, profileRead_profiledeviceclass mem buf,
   profileRead_datacolorspace mem buf, profileRead_pcs mem buf,
   profileRead_datetimenumber mem buf, profileRead_profilefilesignature mem buf,
   profileRead_primaryplatform mem buf, profileRead_profileflags mem buf,
   profileRead_devicemanufacturer mem buf, profileRead_devicemodel mem buf,
   profileRead_deviceattributes mem buf, profileRead_renderingintent mem buf,
   profileRead_pcsilluminant mem buf, profileRead_profilecreator mem buf,
   profileRead_profileid mem buf, profileRead_reserved mem buf,
   profileRead_tagtable mem buf⟩

/-- Claim C3 as amended: tag-table decoding checks no
`offset + size ≤ buffer length` containment at all (see the
counterexample); what every entry of a successfully decoded table does
satisfy is `offset + 4 ≤ buffer length`, because the decoder must peek
the four type-signature bytes at the entry's offset and a short peek
aborts the table. -/
theorem C3_tag_peek_containment (mem : ℚ × ℚ) (buf : Buf) (tt : TagTable)
    (h : (iccProfileRead mem buf).tagtable = some tt) :
    ∀ t ∈ tt.tags, t.tagoffset + 4 ≤ buf.length := by
  rw [profileRead_tagtable] at h
  have htab := toOption_some _ _ h
  obtain ⟨-, h2⟩ := iccTagTableRead_ok mem buf tt htab
  intro t ht
  obtain ⟨o, ho⟩ := readTagList_ok_mem mem buf tt.tagcount 132 tt.tags h2 t ht
  exact iccTagRead_ok_peek mem buf o t ho

theorem C3_tag_peek_containment_witness :
    (iccProfileRead (0, 0) c6buf).tagtable
      = some ⟨1, [⟨[116, 97, 103, 49], 144, 8, none⟩]⟩
    ∧ ∀ t ∈ (⟨1, [⟨[116, 97, 103, 49], 144, 8, none⟩]⟩ : TagTable).tags,
        t.tagoffset + 4 ≤ c6buf.length :=
  ⟨by decide,
   C3_tag_peek_containment (0, 0) c6buf ⟨1, [⟨[116, 97, 103, 49], 144, 8, none⟩]⟩ (by decide)⟩

/-- Claim C6 (confirmed): when the four bytes at a tag's referenced
offset decode to a signature with no registered `<sig>Type` class, the
`getattr` raises `AttributeError`, `iccTag.read` catches exactly that
and passes, and the tag is recorded with its signature, offset and
size and `type = None` - no error escapes, so the walk (whose steps
are independent reads of `(buffer, row offset)`) is unaffected. -/
theorem C6_unknown_type_untyped (mem : ℚ × ℚ) (buf : Buf) (o toff tsize : Nat) (sig st : Buf)
    (hsig : unpack_tagSignature (pySlice (pySlice buf o (o + 12)) 0 4) = .ok sig)
    (hoff : unpack_uInt32Number (pySlice (pySlice buf o (o + 12)) 4 8) = .ok toff)
    (hsize : unpack_uInt32Number (pySlice (pySlice buf o (o + 12)) 8 12) = .ok tsize)
    (hpeek : unpack_tagSignature (pySlice buf toff (toff + 4)) = .ok st)
    (hreg : registry (replUS st) = none) :
    iccTagRead mem buf o = .ok ⟨sig, toff, tsize, none⟩ := by
  unfold iccTagRead
  rw [wrapIcc_ok_iff]
  simp only [hsig, except_bind_ok_red, hoff, hsize, hpeek, hreg, catchAttr]

theorem C6_unknown_type_untyped_witness :
    (unpack_tagSignature (pySlice (pySlice c6buf 132 144) 0 4) = .ok [116, 97, 103, 49]
      ∧ unpack_uInt32Number (pySlice (pySlice c6buf 132 144) 4 8) = .ok 144
      ∧ unpack_uInt32Number (pySlice (pySlice c6buf 132 144) 8 12) = .ok 8
      ∧ unpack_tagSignature (pySlice c6buf 144 148) = .ok [90, 90, 90, 90]
      ∧ registry (replUS [90, 90, 90, 90]) = none)
    ∧ iccTagRead (0, 0) c6buf 132 = .ok ⟨[116, 97, 103, 49], 144, 8, none⟩ :=
  ⟨⟨by decide, by decide, by decide, by decide, by decide⟩,
   C6_unknown_type_untyped (0, 0) c6buf 132 144 8 [116, 97, 103, 49] [90, 90, 90, 90]
     (by decide) (by decide) (by decide) (by decide) (by decide)⟩

/-- Claim C1 as amended: a failure of one tag's element-type decoder
is NOT confined to that tag - the resulting `ICCFileError` escapes
`iccTag.read` (whose inner handler catches only `AttributeError`) and
aborts the whole `iccTagTable.read`, so the walk stops, no tags are
exposed, and the tag table is recorded as skipped; only the header
fields, each guarded by the Profile-level per-field handler, are
unaffected. -/
theorem C1_element_failure_aborts_table (mem : ℚ × ℚ) (buf : Buf) (cnt i : Nat)
    (hcnt : unpack_uInt32Number (pySlice buf 128 132) = .ok cnt)
    (hi : i < cnt)
    (hfail : (iccTagRead mem buf (132 + 12 * i)).toOption = none) :
    iccTagTableRead mem buf = .error .iccErr
    ∧ (iccProfileRead mem buf).tagtable = none
    ∧ (iccProfileRead mem buf).profilesize = (iccProfileSizeRead buf).toOption
    ∧ (iccProfileRead mem buf).preferredcmmtype = (iccPreferredCMMTypeRead buf).toOption
    ∧ (iccProfileRead mem buf).profileversion = (iccProfileVersionRead buf).toOption
    ∧ (iccProfileRead mem buf).profiledeviceclass = (iccProfileDeviceClassRead buf).toOption
    ∧ (iccProfileRead mem buf).datacolorspace = (iccDataColorSpaceRead buf).toOption
    ∧ (iccProfileRead mem buf).pcs = (iccPCSRead buf).toOption
    ∧ (iccProfileRead mem buf).datetimenumber = (iccDateTimeNumberRead buf).toOption
    ∧ (iccProfileRead mem buf).profilefilesignature = (iccProfileFileSignatureRead buf).toOption
    ∧ (iccProfileRead mem buf).primaryplatform = (iccPrimaryPlatformRead buf).toOption
    ∧ (iccProfileRead mem buf).profileflags = (iccProfileFlagsRead buf).toOption
    ∧ (iccProfileRead mem buf).devicemanufacturer = (iccDeviceManufacturerRead buf).toOption
    ∧ (iccProfileRead mem buf).devicemodel = (iccDeviceModelRead buf).toOption
    ∧ (iccProfileRead mem buf).deviceattributes = (iccDeviceAttributesRead buf).toOption
    ∧ (iccProfileRead mem buf).renderingintent = (iccRenderingIntentRead buf).toOption
    ∧ (iccProfileRead mem buf).pcsilluminant = (iccPCSIlluminantRead mem buf).toOption
    ∧ (iccProfileRead mem buf).profilecreator = (iccProfileCreatorRead buf).toOption
    ∧ (iccProfileRead mem buf).profileid = (iccProfileIDRead buf).toOption
    ∧ (iccProfileRead mem buf).reserved = (iccReservedRead buf).toOption := by
  have habort : iccTagTableRead mem buf = .error .iccErr := by
    cases h : iccTagTableRead mem buf with
    | ok tt =>
      exfalso
      obtain ⟨h1, h2⟩ := iccTagTableRead_ok mem buf tt h
      have hc : tt.tagcount = cnt := by
        rw [hcnt] at h1
        cases h1
        rfl
      obtain ⟨t, ht⟩ := readTagList_ok_idx mem buf tt.tagcount 132 tt.tags h2 i (by omega)
      rw [ht] at hfail
      simp [Except.toOption] at hfail
    | error x =>
      unfold iccTagTableRead at h
      have hx := wrapIcc_error_eq _ _ h
      rw [hx]
  have htt : (iccProfileRead mem buf).tagtable = none := by
    rw [profileRead_tagtable, habort]
    rfl
  exact ⟨habort, htt,
    profileRead_profilesize mem buf,
     profileRead_preferredcmmtype mem buf,
     profileRead_profileversion mem buf,
     profileRead_profiledeviceclass mem buf,
     profileRead_datacolorspace mem buf,
     profileRead_pcs mem buf,
     profileRead_datetimenumber mem buf,
     profileRead_profilefilesignature mem buf,
     profileRead_primaryplatform mem buf,
     profileRead_profileflags mem buf,
     profileRead_devicemanufacturer mem buf,
     profileRead_devicemodel mem buf,
     profileRead_deviceattributes mem buf,
     profileRead_renderingintent mem buf,
     profileRead_pcsilluminant mem buf,
     profileRead_profilecreator mem buf,
     profileRead_profileid mem buf,
     profileRead_reserved mem buf⟩

theorem C1_element_failure_aborts_table_witness :
    (unpack_uInt32Number (pySlice c1badBuf 128 132) = .ok 2
      ∧ 0 < 2
      ∧ (iccTagRead (0, 0) c1badBuf (132 + 12 * 0)).toOption = none)
    ∧ iccTagTableRead (0, 0) c1badBuf = .error .iccErr
    ∧ (iccProfileRead (0, 0) c1badBuf).tagtable = none :=
  ⟨⟨by decide, by decide, by decide⟩,
   (C1_element_failure_aborts_table (0, 0) c1badBuf 2 0 (by decide) (by decide) (by decide)).1,
   (C1_element_failure_aborts_table (0, 0) c1badBuf 2 0 (by decide) (by decide) (by decide)).2.1⟩

/-- Claim C2 as amended: a file-signature mismatch does raise
`NotAProfile` inside `iccProfileFileSignature.read`, but it does NOT
abort the decode and nothing is returned to the caller:
`iccProfile.read` catches the error per field, records the skip
(`profilefilesignature = none`), and every other field - including
the tag table - is still decoded by its own reader.  (A truncated
header likewise only fails the individual fields whose slices are cut
short; see the counterexample.) -/
theorem C2_fatal_errors_are_skipped (mem : ℚ × ℚ) (buf : Buf)
    (h : pySlice buf 36 40 ≠ [97, 99, 115, 112]) :
    iccProfileFileSignatureRead buf = .error .iccErr
    ∧ (iccProfileRead mem buf).profilefilesignature = none
    ∧ (iccProfileRead mem buf).profilesize = (iccProfileSizeRead buf).toOption
    ∧ (iccProfileRead mem buf).preferredcmmtype = (iccPreferredCMMTypeRead buf).toOption
    ∧ (iccProfileRead mem buf).profileversion = (iccProfileVersionRead buf).toOption
    ∧ (iccProfileRead mem buf).profiledeviceclass = (iccProfileDeviceClassRead buf).toOption
    ∧ (iccProfileRead mem buf).datacolorspace = (iccDataColorSpaceRead buf).toOption
    ∧ (iccProfileRead mem buf).pcs = (iccPCSRead buf).toOption
    ∧ (iccProfileRead mem buf).datetimenumber = (iccDateTimeNumberRead buf).toOption
    ∧ (iccProfileRead mem buf).primaryplatform = (iccPrimaryPlatformRead buf).toOption
    ∧ (iccProfileRead mem buf).profileflags = (iccProfileFlagsRead buf).toOption
    ∧ (iccProfileRead mem buf).devicemanufacturer = (iccDeviceManufacturerRead buf).toOption
    ∧ (iccProfileRead mem buf).devicemodel = (iccDeviceModelRead buf).toOption
    ∧ (iccProfileRead mem buf).deviceattributes = (iccDeviceAttributesRead buf).toOption
    ∧ (iccProfileRead mem buf).renderingintent = (iccRenderingIntentRead buf).toOption
    ∧ (iccProfileRead mem buf).pcsilluminant = (iccPCSIlluminantRead mem buf).toOption
    ∧ (iccProfileRead mem buf).profilecreator = (iccProfileCreatorRead buf).toOption
    ∧ (iccProfileRead mem buf).profileid = (iccProfileIDRead buf).toOption
    ∧ (iccProfileRead mem buf).reserved = (iccReservedRead buf).toOption
    ∧ (iccProfileRead mem buf).tagtable = (iccTagTableRead mem buf).toOption := by
  have hsig : iccProfileFileSignatureRead buf = .error .iccErr := by
    unfold iccProfileFileSignatureRead
    cases hp : unpack_tagSignature (pySlice buf 36 40) with
    | error e => simp [hp, except_bind_error_red, wrapIcc]
    | ok sig =>
      obtain ⟨hv, -⟩ := unpack_tagSignature_ok _ _ hp
      subst hv
      simp only [hp, except_bind_ok_red]
      rw [if_neg h]
      rfl
  have hnone : (iccProfileRead mem buf).profilefilesignature = none := by
    rw [profileRead_profilefilesignature, hsig]
    rfl
  exact ⟨hsig, hnone,
    profileRead_profilesize mem buf,
     profileRead_preferredcmmtype mem buf,
     profileRead_profileversion mem buf,
     profileRead_profiledeviceclass mem buf,
     profileRead_datacolorspace mem buf,
     profileRead_pcs mem buf,
     profileRead_datetimenumber mem buf,
     profileRead_primaryplatform mem buf,
     profileRead_profileflags mem buf,
     profileRead_devicemanufacturer mem buf,
     profileRead_devicemodel mem buf,
     profileRead_deviceattributes mem buf,
     profileRead_renderingintent mem buf,
     profileRead_pcsilluminant mem buf,
     profileRead_profilecreator mem buf,
     profileRead_profileid mem buf,
     profileRead_reserved mem buf,
    profileRead_tagtable mem buf⟩

theorem C2_fatal_errors_are_skipped_witness :
    pySlice e2buf 36 40 ≠ [97, 99, 115, 112]
    ∧ iccProfileFileSignatureRead e2buf = .error .iccErr
    ∧ (iccProfileRead (0, 0) e2buf).profilefilesignature = none
    ∧ (iccProfileRead (0, 0) e2buf).renderingintent = (iccRenderingIntentRead e2buf).toOption :=
  ⟨by decide,
   (C2_fatal_errors_are_skipped (0, 0) e2buf (by decide)).1,
   (C2_fatal_errors_are_skipped (0, 0) e2buf (by decide)).2.1,
   (C2_fatal_errors_are_skipped (0, 0) e2buf (by decide)).2.2.2.2.2.2.2.2.2.2.2.2.2.2.1⟩

/-- Claim C7 (confirmed): every header field is decoded from a fixed
slice inside bytes 0..128, so two buffers of length at least 128 that
agree on bytes [0, 128) decode to identical header fields; bytes from
offset 128 on (the tag table area) cannot influence the header. -/
theorem C7_header_prefix_determinism (mem : ℚ × ℚ) (b1 b2 : Buf)
    (_hl1 : 128 ≤ b1.length) (_hl2 : 128 ≤ b2.length)
    (h : b1.take 128 = b2.take 128) :
    (iccProfileRead mem b1).profilesize = (iccProfileRead mem b2).profilesize
    ∧ (iccProfileRead mem b1).preferredcmmtype = (iccProfileRead mem b2).preferredcmmtype
    ∧ (iccProfileRead mem b1).profileversion = (iccProfileRead mem b2).profileversion
    ∧ (iccProfileRead mem b1).profiledeviceclass = (iccProfileRead mem b2).profiledeviceclass
    ∧ (iccProfileRead mem b1).datacolorspace = (iccProfileRead mem b2).datacolorspace
    ∧ (iccProfileRead mem b1).pcs = (iccProfileRead mem b2).pcs
    ∧ (iccProfileRead mem b1).datetimenumber = (iccProfileRead mem b2).datetimenumber
    ∧ (iccProfileRead mem b1).profilefilesignature = (iccProfileRead mem b2).profilefilesignature
    ∧ (iccProfileRead mem b1).primaryplatform = (iccProfileRead mem b2).primaryplatform
    ∧ (iccProfileRead mem b1).profileflags = (iccProfileRead mem b2).profileflags
    ∧ (iccProfileRead mem b1).devicemanufacturer = (iccProfileRead mem b2).devicemanufacturer
    ∧ (iccProfileRead mem b1).devicemodel = (iccProfileRead mem b2).devicemodel
    ∧ (iccProfileRead mem b1).deviceattributes = (iccProfileRead mem b2).deviceattributes
    ∧ (iccProfileRead mem b1).renderingintent = (iccProfileRead mem b2).renderingintent
    ∧ (iccProfileRead mem b1).pcsilluminant = (iccProfileRead mem b2).pcsilluminant
    ∧ (iccProfileRead mem b1).profilecreator = (iccProfileRead mem b2).profilecreator
    ∧ (iccProfileRead mem b1).profileid = (iccProfileRead mem b2).profileid
    ∧ (iccProfileRead mem b1).reserved = (iccProfileRead mem b2).reserved := by
  have e_profilesize : iccProfileSizeRead b1 = iccProfileSizeRead b2 := by
    unfold iccProfileSizeRead
    rw [pySlice_congr b1 b2 0 4 (by omega) h]
  have e_preferredcmmtype : iccPreferredCMMTypeRead b1 = iccPreferredCMMTypeRead b2 := by
    unfold iccPreferredCMMTypeRead
    rw [pySlice_congr b1 b2 4 8 (by omega) h]
  have e_profileversion : iccProfileVersionRead b1 = iccProfileVersionRead b2 := by
    unfold iccProfileVersionRead
    rw [pySlice_congr b1 b2 8 12 (by omega) h]
  have e_profiledeviceclass : iccProfileDeviceClassRead b1 = iccProfileDeviceClassRead b2 := by
    unfold iccProfileDeviceClassRead
    rw [pySlice_congr b1 b2 12 16 (by omega) h]
  have e_datacolorspace : iccDataColorSpaceRead b1 = iccDataColorSpaceRead b2 := by
    unfold iccDataColorSpaceRead
    rw [pySlice_congr b1 b2 16 20 (by omega) h]
  have e_pcs : iccPCSRead b1 = iccPCSRead b2 := by
    unfold iccPCSRead
    rw [pySlice_congr b1 b2 20 24 (by omega) h]
  have e_datetimenumber : iccDateTimeNumberRead b1 = iccDateTimeNumberRead b2 := by
    unfold iccDateTimeNumberRead
    rw [pySlice_congr b1 b2 24 36 (by omega) h]
  have e_profilefilesignature : iccProfileFileSignatureRead b1 = iccProfileFileSignatureRead b2 := by
    unfold iccProfileFileSignatureRead
    rw [pySlice_congr b1 b2 36 40 (by omega) h]
  have e_primaryplatform : iccPrimaryPlatformRead b1 = iccPrimaryPlatformRead b2 := by
    unfold iccPrimaryPlatformRead
    rw [pySlice_congr b1 b2 40 44 (by omega) h]
  have e_profileflags : iccProfileFlagsRead b1 = iccProfileFlagsRead b2 := by
    unfold iccProfileFlagsRead
    rw [pySlice_congr b1 b2 44 48 (by omega) h]
  have e_devicemanufacturer : iccDeviceManufacturerRead b1 = iccDeviceManufacturerRead b2 := by
    unfold iccDeviceManufacturerRead
    rw [pySlice_congr b1 b2 48 52 (by omega) h]
  have e_devicemodel : iccDeviceModelRead b1 = iccDeviceModelRead b2 := by
    unfold iccDeviceModelRead
    rw [pySlice_congr b1 b2 52 56 (by omega) h]
  have e_deviceattributes : iccDeviceAttributesRead b1 = iccDeviceAttributesRead b2 := by
    unfold iccDeviceAttributesRead
    rw [pySlice_congr b1 b2 56 64 (by omega) h]
  have e_renderingintent : iccRenderingIntentRead b1 = iccRenderingIntentRead b2 := by
    unfold iccRenderingIntentRead
    rw [pySlice_congr b1 b2 64 68 (by omega) h]
  have e_pcsilluminant : iccPCSIlluminantRead mem b1 = iccPCSIlluminantRead mem b2 := by
    unfold iccPCSIlluminantRead
    rw [pySlice_congr b1 b2 68 80 (by omega) h]
  have e_profilecreator : iccProfileCreatorRead b1 = iccProfileCreatorRead b2 := by
    unfold iccProfileCreatorRead
    rw [pySlice_congr b1 b2 80 84 (by omega) h]
  have e_profileid : iccProfileIDRead b1 = iccProfileIDRead b2 := by
    unfold iccProfileIDRead
    rw [pySlice_congr b1 b2 84 100 (by omega) h]
  have e_reserved : iccReservedRead b1 = iccReservedRead b2 := by
    unfold iccReservedRead
    rw [pySlice_congr b1 b2 100 128 (by omega) h]
  exact ⟨by rw [profileRead_profilesize mem b1, profileRead_profilesize mem b2, e_profilesize],
    by rw [profileRead_preferredcmmtype mem b1, profileRead_preferredcmmtype mem b2, e_preferredcmmtype],
    by rw [profileRead_profileversion mem b1, profileRead_profileversion mem b2, e_profileversion],
    by rw [profileRead_profiledeviceclass mem b1, profileRead_profiledeviceclass mem b2, e_profiledeviceclass],
    by rw [profileRead_datacolorspace mem b1, profileRead_datacolorspace mem b2, e_datacolorspace],
    by rw [profileRead_pcs mem b1, profileRead_pcs mem b2, e_pcs],
    by rw [profileRead_datetimenumber mem b1, profileRead_datetimenumber mem b2, e_datetimenumber],
    by rw [profileRead_profilefilesignature mem b1, profileRead_profilefilesignature mem b2, e_profilefilesignature],
    by rw [profileRead_primaryplatform mem b1, profileRead_primaryplatform mem b2, e_primaryplatform],
    by rw [profileRead_profileflags mem b1, profileRead_profileflags mem b2, e_profileflags],
    by rw [profileRead_devicemanufacturer mem b1, profileRead_devicemanufacturer mem b2, e_devicemanufacturer],
    by rw [profileRead_devicemodel mem b1, profileRead_devicemodel mem b2, e_devicemodel],
    by rw [profileRead_deviceattributes mem b1, profileRead_deviceattributes mem b2, e_deviceattributes],
    by rw [profileRead_renderingintent mem b1, profileRead_renderingintent mem b2, e_renderingintent],
    by rw [profileRead_pcsilluminant mem b1, profileRead_pcsilluminant mem b2, e_pcsilluminant],
    by rw [profileRead_profilecreator mem b1, profileRead_profilecreator mem b2, e_profilecreator],
    by rw [profileRead_profileid mem b1, profileRead_profileid mem b2, e_profileid],
    by rw [profileRead_reserved mem b1, profileRead_reserved mem b2, e_reserved]⟩

theorem C7_header_prefix_determinism_witness :
    (128 ≤ c7a.length ∧ 128 ≤ c7b.length ∧ c7a.take 128 = c7b.take 128)
    ∧ (iccProfileRead (0, 0) c7a).profilesize = (iccProfileRead (0, 0) c7b).profilesize
    ∧ (iccProfileRead (0, 0) c7a).pcsilluminant = (iccProfileRead (0, 0) c7b).pcsilluminant :=
  ⟨⟨by decide, by decide, by decide⟩,
   (C7_header_prefix_determinism (0, 0) c7a c7b (by decide) (by decide) (by decide)).1,
   (C7_header_prefix_determinism (0, 0) c7a c7b (by decide) (by decide)
     (by decide)).2.2.2.2.2.2.2.2.2.2.2.2.2.2.1⟩

/-- Claim C4 as amended: a successfully decoded `curv` element with
count 0 is the identity curve with no samples; with count > 1 it holds
exactly `count` samples, each `raw_u16 / 65535` and in `[0, 1]`; with
count 1 the curve is whatever `unpack_u8Fixed8Number` yields from
bytes 12..14 of the element slice - the single `raw_u16 / 2^8` value
when both bytes are present, but a silently EMPTY sample array when
the element slice is shorter than 14 bytes (the claim's "the single
value is decoded" clause fails there; see the counterexample). -/
theorem C4_curv_decoding (o len : Nat) (buf : Buf) (v : CurvVal)
    (h : curvRead o len buf = .ok v) :
    (v.entriescount = 0 → v.curvetype = "Identity Curve" ∧ v.curve = none)
    ∧ (v.entriescount = 1 → v.curvetype = "Power Function"
        ∧ v.curve = some (unpack_u8Fixed8Number (pySlice (pySlice buf o (o + len)) 12 14))
        ∧ (14 ≤ (pySlice buf o (o + len)).length →
            ∃ raw : Nat, raw ≤ 65535 ∧ v.curve = some [(raw : ℚ) / 256])
        ∧ ((pySlice buf o (o + len)).length < 14 → v.curve = some []))
    ∧ (1 < v.entriescount → v.curvetype = "1D Curve"
        ∧ ∃ samples : List ℚ, v.curve = some samples
            ∧ samples.length = v.entriescount
            ∧ ∀ q ∈ samples, ∃ raw : Nat, raw ≤ 65535
                ∧ q = (raw : ℚ) / 65535 ∧ 0 ≤ q ∧ q ≤ 1) := by
  unfold curvRead at h
  rw [wrapIcc_ok_iff] at h
  obtain ⟨tsig, h1, h⟩ := exceptBind_ok _ _ _ h
  obtain ⟨res, h2, h⟩ := exceptBind_ok _ _ _ h
  obtain ⟨cnt, h3, h⟩ := exceptBind_ok _ _ _ h
  by_cases hc0 : cnt = 0
  · subst hc0
    rw [if_pos rfl] at h
    cases h
    exact ⟨fun _ => ⟨rfl, rfl⟩, fun hx => by simp at hx, fun hx => by simp at hx⟩
  · by_cases hc1 : cnt = 1
    · subst hc1
      rw [if_neg hc0, if_pos rfl] at h
      cases h
      refine ⟨fun hx => by simp at hx, fun _ => ⟨rfl, rfl, ?_, ?_⟩, fun hx => by simp at hx⟩
      · intro hlen
        have hslice : (pySlice (pySlice buf o (o + len)) 12 14).length = 2 := by
          rw [pySlice_length]
          omega
        obtain ⟨x, y, hxy⟩ := List.length_eq_two.mp hslice
        refine ⟨x.val * 256 + y.val, ?_, ?_⟩
        · have hx := x.isLt
          have hy := y.isLt
          omega
        · rw [hxy]
          simp [unpack_u8Fixed8Number]
      · intro hlen
        have hshort : (pySlice (pySlice buf o (o + len)) 12 14).length ≤ 1 := by
          rw [pySlice_length]
          omega
        rw [unpack_u8Fixed8_short _ hshort]
    · rw [if_neg hc0, if_neg hc1] at h
      by_cases hg : 12 + 2 * cnt ≤ (pySlice buf o (o + len)).length
      · rw [if_pos hg] at h
        cases h
        refine ⟨fun hx => absurd hx hc0, fun hx => absurd hx hc1, fun _ => ⟨rfl, ?_⟩⟩
        refine ⟨_, rfl, ?_, ?_⟩
        · show (List.map (fun r : Nat => (r : ℚ) / 65535)
              (groupU16 (pySlice (pySlice buf o (o + len)) 12 (12 + 2 * cnt)))).length = cnt
          rw [List.length_map, groupU16_length, pySlice_length]
          omega
        · intro q hq
          obtain ⟨raw, hraw, hqe⟩ := List.mem_map.mp hq
          have hle := groupU16_le _ raw hraw
          refine ⟨raw, hle, hqe.symm, ?_, ?_⟩
          · rw [← hqe]
            positivity
          · rw [← hqe]
            rw [div_le_one (by norm_num)]
            exact_mod_cast hle
      · rw [if_neg hg] at h
        cases h

theorem C4_curv_decoding_witness :
    curvRead 0 16 c4wBuf = .ok ⟨[99, 117, 114, 118], 0, 2, "1D Curve", some [0, 1]⟩
    ∧ ((⟨[99, 117, 114, 118], 0, 2, "1D Curve", some [0, 1]⟩ : CurvVal).curvetype = "1D Curve"
        ∧ ∃ samples : List ℚ,
            (⟨[99, 117, 114, 118], 0, 2, "1D Curve", some [0, 1]⟩ : CurvVal).curve = some samples
            ∧ samples.length
                = (⟨[99, 117, 114, 118], 0, 2, "1D Curve", some [0, 1]⟩ : CurvVal).entriescount
            ∧ ∀ q ∈ samples, ∃ raw : Nat, raw ≤ 65535
                ∧ q = (raw : ℚ) / 65535 ∧ 0 ≤ q ∧ q ≤ 1) :=
  ⟨by decide,
   (C4_curv_decoding 0 16 c4wBuf ⟨[99, 117, 114, 118], 0, 2, "1D Curve", some [0, 1]⟩
     (by decide)).2.2 (by decide)⟩

/-- Claim C8 as amended: the struct-based primitive readers (u8, u16,
u32, 4-byte tag signature) do fail on a view shorter than their fixed
width, but the numpy-based fixed-point readers do not: on a short view
`unpack_s15Fixed16Number` and `unpack_u8Fixed8Number` silently return
the empty value rather than a Truncated error. -/
theorem C8_reader_truncation (s : Buf) :
    (s.length < 4 →
      unpack_uInt32Number s = .error .structErr
      ∧ unpack_tagSignature s = .error .structErr
      ∧ unpack_s15Fixed16Number s = [])
    ∧ (s.length < 2 →
      unpack_uInt16Number s = .error .structErr
      ∧ unpack_u8Fixed8Number s = [])
    ∧ (s.length < 1 → unpack_uInt8Number s = .error .structErr) := by
  rcases s with - | ⟨a, s⟩
  · exact ⟨fun _ => ⟨rfl, rfl, rfl⟩, fun _ => ⟨rfl, rfl⟩, fun _ => rfl⟩
  rcases s with - | ⟨b, s⟩
  · exact ⟨fun _ => ⟨rfl, rfl, rfl⟩, fun _ => ⟨rfl, rfl⟩, fun hx => by simp at hx⟩
  rcases s with - | ⟨c, s⟩
  · exact ⟨fun _ => ⟨rfl, rfl, rfl⟩, fun hx => by simp at hx,
      fun hx => by simp at hx⟩
  rcases s with - | ⟨d, s⟩
  · exact ⟨fun _ => ⟨rfl, rfl, rfl⟩, fun hx => by simp at hx,
      fun hx => by simp at hx⟩
  exact ⟨fun hx => by simp only [List.length_cons] at hx; omega,
    fun hx => by simp only [List.length_cons] at hx; omega,
    fun hx => by simp only [List.length_cons] at hx; omega⟩

theorem C8_reader_truncation_witness :
    (([] : Buf).length < 4 ∧ ([] : Buf).length < 2 ∧ ([] : Buf).length < 1)
    ∧ (unpack_uInt32Number [] = .error .structErr
        ∧ unpack_tagSignature [] = .error .structErr
        ∧ unpack_s15Fixed16Number [] = [])
    ∧ (unpack_uInt16Number [] = .error .structErr ∧ unpack_u8Fixed8Number [] = [])
    ∧ unpack_uInt8Number [] = .error .structErr :=
  ⟨⟨by decide, by decide, by decide⟩,
   (C8_reader_truncation []).1 (by decide),
   (C8_reader_truncation []).2.1 (by decide),
   (C8_reader_truncation []).2.2 (by decide)⟩
